import Mathlib

/-!
# Fedora automatic graphics-driver installer: verification development

A shallow embedding of `src/auto-driver-installer.cpp`.

Modelling conventions:

* `std::string` is a Lean `String` (a list of characters, one per byte of the
  C++ string).
* Everything the program does to the outside world is appended, in program
  order, to a history of `Event`s carried next to the fields of the
  `DriverManager` object.
* Everything the outside world answers (exit status of `system`, text read
  from `popen`, `fs::exists`, whether an `std::ofstream` opened, the effective
  uid, whether `fs::create_directories` succeeds, what `std::getline` reads)
  is read from a `World`, which may answer differently after different
  histories.
* `std::getline(std::cin, response)` either replaces `response` (a line was
  read, or the stream was still good and gave nothing: the empty string) or,
  when the stream is already at its end or failed, leaves `response` as it was.
* The throwing `fs::create_directories` of the constructor is modelled: when it
  fails the exception is not caught anywhere, the process ends in
  `std::terminate`. Every other library call is taken to return.
-/

namespace DriverInstaller

/-! ## Data model -/

/-- Record `GraphicsDevice` of the source. -/
structure GraphicsDevice where
  pciId : String
  vendor : String
  model : String
  currentDriver : String
  isPrimary : Bool
  deriving DecidableEq, Repr

/-- One effect on the outside world. -/
inductive Event where
  /-- Call `system(cmd)` -/
  | system (cmd : String)
  /-- Call `executeCommand(cmd)`: `popen(cmd, "r")` and reading its output -/
  | popen (cmd : String)
  /-- Call `logMessage(msg)`: the line on standard output and the log-file entry -/
  | log (msg : String)
  /-- text sent to `std::cout` directly -/
  | print (msg : String)
  /-- text sent to `std::cerr` -/
  | printErr (msg : String)
  /-- Call `std::getline(std::cin, response)` -/
  | readLine
  /-- Call `std::this_thread::sleep_for(std::chrono::seconds(n))` -/
  | sleep (seconds : Nat)
  /-- text written through an opened `std::ofstream` -/
  | writeFile (path : String) (content : String)
  /-- Call `fs::create_directories(path)` -/
  | createDirectories (path : String)
  deriving DecidableEq, Repr

/-- The answers of the environment; each may depend on the history so far. -/
structure World where
  /-- Value of `geteuid()` -/
  euid : Nat
  /-- Return value of `system(cmd)` -/
  systemStatus : List Event → String → Int
  /-- text read from `popen(cmd, "r")`; the empty text when `popen` fails -/
  popenOutput : List Event → String → String
  /-- Value of `fs::exists(path)` -/
  fsExists : List Event → String → Bool
  /-- whether `std::ofstream(path).is_open()` -/
  ofstreamOpens : List Event → String → Bool
  /-- whether `fs::create_directories(path)` succeeds; it throws otherwise -/
  createDirectoriesOk : List Event → String → Bool
  /-- what `std::getline(std::cin, response)` stores in `response`: `none` when
  the stream is no longer good, so that `response` is left untouched -/
  stdinLine : List Event → Option String

/-- Fields of class `DriverManager` that change, plus the history of effects. -/
structure DriverManager where
  detectedDevices : List GraphicsDevice
  rpmFusionEnabled : Bool
  history : List Event
  deriving DecidableEq

/-- Field `backupDir`. -/
def backupDir : String := "/var/lib/driver-installer/backup"

/-- Field `logFile`. -/
def logFile : String := "/var/lib/driver-installer/install.log"

/-- Field `vendorMap`. -/
def vendorMap : List (String × String) :=
  [("10de", "NVIDIA"), ("1002", "AMD"), ("8086", "Intel")]

/-! ## Primitive operations -/

/-- Append one event to the history. -/
def DriverManager.emit (dm : DriverManager) (e : Event) : DriverManager :=
  { dm with history := dm.history ++ [e] }

/-- Method `logMessage`. -/
def logMessage (dm : DriverManager) (message : String) : DriverManager :=
  dm.emit (Event.log message)

/-- Library call `system(command)`: the exit status and the new history. -/
def system (w : World) (command : String) (dm : DriverManager) : Int × DriverManager :=
  (w.systemStatus dm.history command, dm.emit (Event.system command))

/-- Method `executeCommand`: the captured output and the new history. -/
def executeCommand (w : World) (command : String) (dm : DriverManager) :
    String × DriverManager :=
  (w.popenOutput dm.history command, dm.emit (Event.popen command))

/-- Library call `s.substr(0, n)`. -/
def substr0 (s : String) (n : Nat) : String := String.mk (s.data.take n)

/-- Method `detectCurrentDriver`. -/
def detectCurrentDriver (w : World) (pciId : String) (dm : DriverManager) :
    String × DriverManager :=
  let vendorId := substr0 pciId 4
  if vendorId = "10de" then
    let r1 := system w "lsmod | grep -q nouveau" dm
    if r1.1 = 0 then ("nouveau", r1.2)
    else
      let r2 := system w "lsmod | grep -q nvidia" r1.2
      if r2.1 = 0 then ("nvidia", r2.2) else ("unknown", r2.2)
  else if vendorId = "1002" then
    let r1 := system w "lsmod | grep -q amdgpu" dm
    if r1.1 = 0 then ("amdgpu", r1.2)
    else
      let r2 := system w "lsmod | grep -q radeon" r1.2
      if r2.1 = 0 then ("radeon", r2.2) else ("unknown", r2.2)
  else if vendorId = "8086" then ("intel", dm)
  else ("unknown", dm)

/-! ## The regular expression of `detectGraphicsDevices` -/

/-- A matcher for one character. -/
inductive CharClass where
  /-- a literal character -/
  | chr (c : Char)
  /-- the dot `.`: any character except line terminators -/
  | any
  /-- the class `[0-9a-f]` -/
  | hexLower
  deriving DecidableEq, Repr

/-- Whether the class accepts the character. -/
def CharClass.test : CharClass → Char → Bool
  | .chr c, x => x == c
  | .any, x => x != '\n' && x != '\r'
  | .hexLower, x =>
      (48 ≤ x.toNat && x.toNat ≤ 57) || (97 ≤ x.toNat && x.toNat ≤ 102)

/-- The fragment of ECMAScript regular expressions used by the source. -/
inductive Regex where
  /-- one character of a class -/
  | atom (cc : CharClass)
  /-- concatenation -/
  | seq (a b : Regex)
  /-- greedy `*` over a one-character class -/
  | star (cc : CharClass)
  /-- capturing group number `i` -/
  | group (i : Nat) (r : Regex)
  /-- greedy `?` -/
  | opt (r : Regex)
  deriving Repr

/-- Sub-match table: `none` is a group that did not take part in the match. -/
abbrev Captures := Nat → Option (List Char)

/-- Greedy repetition of a one-character class: take as many characters as
possible, giving one back each time the continuation fails. -/
def starLoop {α : Type} (cc : CharClass) (k : List Char → Option α) :
    List Char → Option α
  | [] => k []
  | c :: t =>
      if cc.test c then
        match starLoop cc k t with
        | some r => some r
        | none => k (c :: t)
      else k (c :: t)

/-- Backtracking match of a regular expression at the head of the input,
followed by the continuation `k` on the rest of the input. -/
def Regex.run : Regex → List Char → Captures →
    (List Char → Captures → Option Captures) → Option Captures
  | .atom cc, s, caps, k =>
      match s with
      | c :: t => if cc.test c then k t caps else none
      | [] => none
  | .seq a b, s, caps, k => a.run s caps (fun s1 caps1 => b.run s1 caps1 k)
  | .star cc, s, caps, k => starLoop cc (fun s1 => k s1 caps) s
  | .group i r, s, caps, k =>
      r.run s caps (fun s1 caps1 =>
        k s1 (Function.update caps1 i (some (s.take (s.length - s1.length)))))
  | .opt r, s, caps, k =>
      match r.run s caps k with
      | some res => some res
      | none => k s caps

/-- A literal text followed by `rest`. -/
def Regex.lit (text : String) (rest : Regex) : Regex :=
  text.data.foldr (fun c r => Regex.seq (Regex.atom (CharClass.chr c)) r) rest

/-- The pattern `.+`. -/
def Regex.anyPlus : Regex := Regex.seq (Regex.atom CharClass.any) (Regex.star CharClass.any)

/-- The pattern `[0-9a-f]{4}`. -/
def Regex.hex4 : Regex :=
  Regex.seq (Regex.atom CharClass.hexLower) (Regex.seq (Regex.atom CharClass.hexLower)
    (Regex.seq (Regex.atom CharClass.hexLower) (Regex.atom CharClass.hexLower)))

/-- The pattern
`(.+) VGA compatible controller.*\[([0-9a-f]{4}):([0-9a-f]{4})\](?:: (.+))?`. -/
def deviceRegex : Regex :=
  Regex.seq (Regex.group 1 Regex.anyPlus)
    (Regex.lit " VGA compatible controller"
      (Regex.seq (Regex.star CharClass.any)
        (Regex.seq (Regex.atom (CharClass.chr '['))
          (Regex.seq (Regex.group 2 Regex.hex4)
            (Regex.seq (Regex.atom (CharClass.chr ':'))
              (Regex.seq (Regex.group 3 Regex.hex4)
                (Regex.seq (Regex.atom (CharClass.chr ']'))
                  (Regex.opt (Regex.lit ": " (Regex.group 4 Regex.anyPlus))))))))))

/-- Library call `std::regex_search`: the first start position, from the left,
at which the pattern matches, with the sub-matches of that match. -/
def regex_search (r : Regex) : List Char → Option Captures
  | [] => r.run [] (fun _ => none) (fun _ caps => some caps)
  | c :: t =>
      match r.run (c :: t) (fun _ => none) (fun _ caps => some caps) with
      | some caps => some caps
      | none => regex_search r t

/-- Value of `matches[i].str()`: the empty string for a group that did not take part. -/
def subMatchStr (m : Captures) (i : Nat) : String := String.mk ((m i).getD [])

/-- Value of `matches.size()` after a successful search: the four groups and the whole. -/
def matchesSize : Nat := 5

/-- The lines `std::getline` delivers from a text: `cur` holds the characters
read since the last newline. -/
def getlines : List Char → List Char → List (List Char)
  | cur, [] => if cur.isEmpty then [] else [cur]
  | cur, c :: t => if c = '\n' then cur :: getlines [] t else getlines (cur ++ [c]) t

/-! ## Detection -/

/-- Body of the `while (std::getline(stream, line))` loop of
`detectGraphicsDevices`. -/
def detectLine (w : World) (dm : DriverManager) (line : List Char) : DriverManager :=
  match regex_search deviceRegex line with
  | none => dm
  | some m =>
      let pciId := subMatchStr m 2 ++ ":" ++ subMatchStr m 3
      let vendor :=
        match vendorMap.lookup (subMatchStr m 2) with
        | some name => name
        | none => "Unknown"
      let model := if matchesSize > 4 then subMatchStr m 4 else "Unknown Model"
      let isPrimary := dm.detectedDevices.isEmpty
      let probe := detectCurrentDriver w pciId dm
      let device : GraphicsDevice :=
        { pciId := pciId, vendor := vendor, model := model,
          currentDriver := probe.1, isPrimary := isPrimary }
      logMessage { probe.2 with detectedDevices := probe.2.detectedDevices ++ [device] }
        ("Wykryto urządzenie: " ++ device.vendor ++ " " ++ device.model ++ " [" ++
          device.pciId ++ "]")

/-- Method `detectGraphicsDevices`. -/
def detectGraphicsDevices (w : World) (dm : DriverManager) : Bool × DriverManager :=
  let dm0 := logMessage dm "Wykrywanie urządzeń graficznych..."
  let out := executeCommand w "lspci -nn | grep -E 'VGA|3D|Display'" dm0
  let dm1 := (getlines [] out.1.data).foldl (detectLine w) out.2
  (!dm1.detectedDevices.isEmpty, dm1)

/-! ## Vendor install routines -/

/-- Method `installNvidiaDrivers`. -/
def installNvidiaDrivers (w : World) (_device : GraphicsDevice) (dm : DriverManager) :
    Bool × DriverManager :=
  let dm0 := logMessage dm "Instalacja sterowników NVIDIA..."
  if !dm0.rpmFusionEnabled then
    (false, logMessage dm0
      "BŁĄD: Repozytoria RPM Fusion nie są włączone. Nie można zainstalować sterowników NVIDIA.")
  else
    let r := system w
      "dnf install -y akmod-nvidia xorg-x11-drv-nvidia xorg-x11-drv-nvidia-cuda" dm0
    if r.1 ≠ 0 then
      (false, logMessage r.2 "BŁĄD: Nie udało się zainstalować sterowników NVIDIA")
    else
      let dm1 := logMessage r.2 "Oczekiwanie na zbudowanie modułu jądra NVIDIA..."
      let dm2 := dm1.emit (Event.sleep 60)
      let r2 := system w "lsmod | grep -q nvidia" dm2
      if r2.1 ≠ 0 then
        (false, logMessage r2.2 "OSTRZEŻENIE: Moduł NVIDIA nie został załadowany")
      else
        let r3 := system w "nvidia-xconfig" r2.2
        (true, logMessage r3.2 "Pomyślnie zainstalowano sterowniki NVIDIA")

/-- Text written to `/etc/X11/xorg.conf.d/20-amdgpu.conf`. -/
def amdConf : String :=
  "Section \"Device\"\n    Identifier \"AMD\"\n    Driver \"amdgpu\"\n" ++
  "    Option \"TearFree\" \"true\"\nEndSection\n"

/-- Text written to `/etc/X11/xorg.conf.d/20-intel.conf`. -/
def intelConf : String :=
  "Section \"Device\"\n    Identifier \"Intel Graphics\"\n    Driver \"intel\"\n" ++
  "    Option \"TearFree\" \"true\"\nEndSection\n"

/-- An `std::ofstream` on `path`: when it opens, `content` is written. -/
def writeConfig (w : World) (path content : String) (dm : DriverManager) : DriverManager :=
  if w.ofstreamOpens dm.history path then dm.emit (Event.writeFile path content) else dm

/-- Method `installAmdDrivers`. -/
def installAmdDrivers (w : World) (_device : GraphicsDevice) (dm : DriverManager) :
    Bool × DriverManager :=
  let dm0 := logMessage dm "Instalacja sterowników AMD..."
  let r := system w
    "dnf install -y mesa-dri-drivers mesa-libGL mesa-vulkan-drivers xorg-x11-drv-amdgpu" dm0
  if r.1 ≠ 0 then
    (false, logMessage r.2 "BŁĄD: Nie udało się zainstalować sterowników AMD")
  else
    let dm1 := writeConfig w "/etc/X11/xorg.conf.d/20-amdgpu.conf" amdConf r.2
    (true, logMessage dm1 "Pomyślnie zainstalowano sterowniki AMD")

/-- Method `installIntelDrivers`. -/
def installIntelDrivers (w : World) (_device : GraphicsDevice) (dm : DriverManager) :
    Bool × DriverManager :=
  let dm0 := logMessage dm "Instalacja sterowników Intel..."
  let r := system w "dnf install -y mesa-dri-drivers mesa-libGL xorg-x11-drv-intel" dm0
  if r.1 ≠ 0 then
    (false, logMessage r.2 "BŁĄD: Nie udało się zainstalować sterowników Intel")
  else
    let dm1 := writeConfig w "/etc/X11/xorg.conf.d/20-intel.conf" intelConf r.2
    (true, logMessage dm1 "Pomyślnie zainstalowano sterowniki Intel")

/-! ## installDrivers -/

/-- Per-device result of the install loop: the device and the value assigned to
the local `success` by its vendor routine. The source keeps it only for the
length of one iteration; the loop below records it. -/
structure InstallOutcome where
  device : GraphicsDevice
  succeeded : Bool
  deriving DecidableEq, Repr

/-- What the loop of `installDrivers` carries from one iteration to the next:
the local `allSuccess`, the manager, and the record of the routines run so far. -/
structure InstallLoop where
  allSuccess : Bool
  outcomes : List InstallOutcome
  dm : DriverManager

/-- The `if / else if` chain of the loop body: the vendor routine chosen for a
device, `none` in the final `else` branch. -/
def vendorRoutine (w : World) (device : GraphicsDevice) :
    Option (DriverManager → Bool × DriverManager) :=
  if device.vendor = "NVIDIA" then some (installNvidiaDrivers w device)
  else if device.vendor = "AMD" then some (installAmdDrivers w device)
  else if device.vendor = "Intel" then some (installIntelDrivers w device)
  else none

/-- Body of the `for (const auto& device : detectedDevices)` loop of
`installDrivers`. -/
def installStep (w : World) (acc : InstallLoop) (device : GraphicsDevice) : InstallLoop :=
  let dm0 := logMessage acc.dm
    ("Instalacja sterowników dla: " ++ device.vendor ++ " " ++ device.model)
  match vendorRoutine w device with
  | none =>
      { allSuccess := acc.allSuccess, outcomes := acc.outcomes,
        dm := logMessage dm0
          "Nieznany producent karty graficznej. Pomijanie instalacji sterowników." }
  | some routine =>
      let r := routine dm0
      let outcomes := acc.outcomes ++ [{ device := device, succeeded := r.1 }]
      if !r.1 then
        { allSuccess := false, outcomes := outcomes,
          dm := logMessage r.2
            ("OSTRZEŻENIE: Nie udało się zainstalować sterowników dla " ++ device.vendor ++
              " " ++ device.model) }
      else { allSuccess := acc.allSuccess, outcomes := outcomes, dm := r.2 }

/-- The whole loop of `installDrivers`, started with `allSuccess = true`. -/
def installLoop (w : World) (dm : DriverManager) : InstallLoop :=
  let dm0 := logMessage dm "Rozpoczęcie instalacji sterowników..."
  dm0.detectedDevices.foldl (installStep w)
    { allSuccess := true, outcomes := [], dm := dm0 }

/-- Method `installDrivers`. -/
def installDrivers (w : World) (dm : DriverManager) : Bool × DriverManager :=
  let l := installLoop w dm
  if l.allSuccess then
    (true, logMessage l.dm "Instalacja sterowników zakończona pomyślnie")
  else
    (false, logMessage l.dm "Instalacja zakończona z ostrzeżeniami lub błędami")

/-- The routines `installDrivers` ran, in the order it ran them, each with the
value it returned. -/
def installOutcomes (w : World) (dm : DriverManager) : List InstallOutcome :=
  (installLoop w dm).outcomes

/-! ## Verification, rollback, backup, repositories -/

/-- Method `testDrivers`. -/
def testDrivers (w : World) (dm : DriverManager) : Bool × DriverManager :=
  let dm0 := logMessage dm "Testowanie zainstalowanych sterowników..."
  let r1 := system w "pgrep -x Xorg > /dev/null" dm0
  let running : Bool × DriverManager :=
    if r1.1 = 0 then (true, r1.2)
    else
      let r2 := system w "pgrep -x X > /dev/null" r1.2
      if r2.1 = 0 then (true, r2.2)
      else
        let r3 := system w "pgrep -x wayland > /dev/null" r2.2
        if r3.1 = 0 then (true, r3.2) else (false, r3.2)
  if !running.1 then
    (false, logMessage running.2
      "BŁĄD: Serwer wyświetlania nie działa po instalacji sterowników!")
  else (true, logMessage running.2 "Pomyślnie przetestowano sterowniki")

/-- Body of the device loop of `restoreDefaultDrivers`. -/
def restoreStep (w : World) (dm : DriverManager) (device : GraphicsDevice) : DriverManager :=
  if device.vendor = "NVIDIA" then
    let r1 := executeCommand w "dnf remove -y akmod-nvidia xorg-x11-drv-nvidia*" dm
    (executeCommand w "dnf install -y xorg-x11-drv-nouveau" r1.2).2
  else if device.vendor = "AMD" then
    (executeCommand w "dnf reinstall -y mesa-dri-drivers mesa-libGL xorg-x11-drv-amdgpu" dm).2
  else dm

/-- Method `restoreDefaultDrivers`. -/
def restoreDefaultDrivers (w : World) (dm : DriverManager) : Bool × DriverManager :=
  let dm0 := logMessage dm "Przywracanie domyślnych sterowników..."
  let dm1 :=
    if w.fsExists dm0.history (backupDir ++ "/xorg.conf") &&
        w.fsExists dm0.history "/etc/X11/xorg.conf" then
      (executeCommand w ("cp " ++ backupDir ++ "/xorg.conf /etc/X11/xorg.conf") dm0).2
    else dm0
  let dm2 := dm1.detectedDevices.foldl (restoreStep w) dm1
  (true, logMessage dm2 "Przywrócono domyślne sterowniki")

/-- Method `createBackup`. -/
def createBackup (w : World) (dm : DriverManager) : DriverManager :=
  let dm0 := logMessage dm "Tworzenie kopii zapasowej konfiguracji..."
  let dm1 :=
    if w.fsExists dm0.history "/etc/X11/xorg.conf" then
      (executeCommand w ("cp /etc/X11/xorg.conf " ++ backupDir ++ "/xorg.conf") dm0).2
    else dm0
  let dm2 :=
    if w.fsExists dm1.history "/etc/X11/xorg.conf.d" then
      let a := executeCommand w ("mkdir -p " ++ backupDir ++ "/xorg.conf.d") dm1
      (executeCommand w
        ("cp -r /etc/X11/xorg.conf.d/* " ++ backupDir ++ "/xorg.conf.d/") a.2).2
    else dm1
  let dm3 := (executeCommand w ("lsmod > " ++ backupDir ++ "/lsmod.txt") dm2).2
  logMessage dm3 "Kopia zapasowa została utworzona"

/-- Command that registers the RPM Fusion "free" repository. -/
def rpmFusionFreeCmd : String :=
  "dnf install -y https://mirrors.rpmfusion.org/free/fedora/" ++
  "rpmfusion-free-release-$(rpm -E %fedora).noarch.rpm"

/-- Command that registers the RPM Fusion "non-free" repository. -/
def rpmFusionNonfreeCmd : String :=
  "dnf install -y https://mirrors.rpmfusion.org/nonfree/fedora/" ++
  "rpmfusion-nonfree-release-$(rpm -E %fedora).noarch.rpm"

/-- Method `enableRepositories`. -/
def enableRepositories (w : World) (dm : DriverManager) : DriverManager :=
  let dm0 := logMessage dm "Sprawdzanie i włączanie repozytoriów..."
  let chk := system w "dnf repolist | grep -q rpmfusion" dm0
  if chk.1 = 0 then
    { logMessage chk.2 "Repozytoria RPM Fusion są już włączone" with rpmFusionEnabled := true }
  else
    let resultFree := system w rpmFusionFreeCmd chk.2
    let resultNonfree := system w rpmFusionNonfreeCmd resultFree.2
    if resultFree.1 = 0 ∧ resultNonfree.1 = 0 then
      { logMessage resultNonfree.2 "Pomyślnie włączono repozytoria RPM Fusion" with
        rpmFusionEnabled := true }
    else
      logMessage resultNonfree.2 "OSTRZEŻENIE: Nie udało się włączyć repozytoriów RPM Fusion"

/-- One statement `if (!fs::exists(path)) fs::create_directories(path);` of the
constructor. `fs::create_directories` throws when it cannot create the
directory: the result is then `Except.error` with the history up to the throw. -/
def ensureDirectory (w : World) (path : String) (dm : DriverManager) :
    Except (List Event) DriverManager :=
  if !w.fsExists dm.history path then
    if w.createDirectoriesOk dm.history path then
      Except.ok (dm.emit (Event.createDirectories path))
    else Except.error (dm.history ++ [Event.createDirectories path])
  else Except.ok dm

/-- Constructor `DriverManager()`, run after the given history: the
constructed manager, or `Except.error` when `fs::create_directories` threw. -/
def DriverManager.construct (w : World) (history : List Event) :
    Except (List Event) DriverManager :=
  let dm0 : DriverManager :=
    { detectedDevices := [], rpmFusionEnabled := false, history := history }
  match ensureDirectory w "/var/lib/driver-installer" dm0 with
  | Except.error h => Except.error h
  | Except.ok dm1 => ensureDirectory w backupDir dm1

/-- Method `DriverManager::initialize`. -/
def initManager (w : World) (dm : DriverManager) : Bool × DriverManager :=
  let dm0 := logMessage dm "Rozpoczęcie procesu automatycznej instalacji sterowników"
  if w.euid ≠ 0 then
    (false, logMessage dm0
      "BŁĄD: Ten program musi być uruchomiony z uprawnieniami administratora (root)")
  else
    let det := detectGraphicsDevices w dm0
    if !det.1 then
      (false, logMessage det.2 "BŁĄD: Nie udało się wykryć urządzeń graficznych")
    else
      let dm1 := createBackup w det.2
      let dm2 := enableRepositories w dm1
      (true, dm2)

/-! ## The program: interactive run, automatic run, `main` -/

/-- One statement sending text to `std::cout`. -/
def cout (dm : DriverManager) (text : String) : DriverManager :=
  dm.emit (Event.print text)

/-- Library call `std::getline(std::cin, response)`: the value of `response`
after the call, which is its old value when nothing could be read. -/
def getline (w : World) (response : String) (dm : DriverManager) : String × DriverManager :=
  ((w.stdinLine dm.history).getD response, dm.emit Event.readLine)

/-- Body of the loop of `run` that prints the detected devices. -/
def printDevice (dm : DriverManager) (device : GraphicsDevice) : DriverManager :=
  cout (cout dm ("- " ++ device.vendor ++ " " ++ device.model))
    (" [Aktualny sterownik: " ++ device.currentDriver ++ "]\n")

/-- Method `AutoDriverInstaller::run`, first part: the banner and the call of
`driverManager.initialize()`. -/
def runInit (w : World) (dm : DriverManager) : Bool × DriverManager :=
  let b1 := cout dm "===== Automatyczna instalacja sterowników graficznych Fedora =====\n"
  let b2 := cout b1 "Ten program automatycznie wykryje i zainstaluje zalecane sterowniki\n"
  let b3 := cout b2 "dla Twojej karty graficznej. W przypadku niepowodzenia przywróci\n"
  let b4 := cout b3 "domyślne sterowniki.\n"
  let b5 := cout b4 "\n"
  initManager w b5

/-- Method `run`, after a successful initialisation: the device listing, the
install prompt and the read into the local `response`, declared empty just
before. The result holds the content of `response` after the read. -/
def runConfirm (w : World) (dm : DriverManager) : String × DriverManager :=
  let p1 := cout (runInit w dm).2 "\nWykryte urządzenia graficzne:\n"
  let p2 := p1.detectedDevices.foldl printDevice p1
  let p3 := cout p2 "\nCzy chcesz kontynuować instalację zalecanych sterowników? (t/n): "
  getline w "" p3

/-- Method `run`, after the user agreed: the call of `installDrivers()`. -/
def runInstall (w : World) (dm : DriverManager) : Bool × DriverManager :=
  installDrivers w (runConfirm w dm).2

/-- Method `run`, after a failed install: the rollback prompt and the read into
the same `response`, which still holds the answer to the install prompt. The
result holds the content of `response` after the read. -/
def runRollbackAnswer (w : World) (dm : DriverManager) : String × DriverManager :=
  let q1 := cout (runInstall w dm).2 "\nWystąpiły problemy podczas instalacji sterowników.\n"
  let q2 := cout q1 "Czy chcesz przywrócić domyślne sterowniki? (t/n): "
  getline w (runConfirm w dm).1 q2

/-- Method `run`, after a successful install: the call of `testDrivers()`. -/
def runTest (w : World) (dm : DriverManager) : Bool × DriverManager :=
  testDrivers w (runInstall w dm).2

/-- Method `AutoDriverInstaller::run`, on the member `driverManager`. -/
def run (w : World) (dm : DriverManager) : Int × DriverManager :=
  let ini := runInit w dm
  if !ini.1 then
    (1, ini.2.emit (Event.printErr "Nie można kontynuować z powodu błędów inicjalizacji.\n"))
  else
    let ask := runConfirm w dm
    if ask.1 ≠ "t" ∧ ask.1 ≠ "T" then
      (0, cout ask.2 "Instalacja została anulowana przez użytkownika.\n")
    else
      let inst := runInstall w dm
      if !inst.1 then
        let ask2 := runRollbackAnswer w dm
        if ask2.1 = "t" ∨ ask2.1 = "T" then
          let rb := restoreDefaultDrivers w ask2.2
          (1, cout rb.2 "Przywrócono domyślne sterowniki.\n")
        else (1, ask2.2)
      else
        let tst := runTest w dm
        if !tst.1 then
          let q1 := cout tst.2 "\nWystąpiły problemy z nowymi sterownikami.\n"
          let q2 := cout q1 "Przywracanie domyślnych sterowników...\n"
          let rb := restoreDefaultDrivers w q2
          (1, rb.2)
        else
          let q1 := cout tst.2 "\nInstalacja sterowników zakończona pomyślnie!\n"
          let q2 := cout q1
            ("Zaleca się ponowne uruchomienie systemu, aby zmiany zostały w pełni " ++
              "zastosowane.\n")
          let q3 := cout q2 "Czy chcesz teraz ponownie uruchomić system? (t/n): "
          let ask3 := getline w ask.1 q3
          if ask3.1 = "t" ∨ ask3.1 = "T" then (0, (system w "reboot" ask3.2).2)
          else (0, ask3.2)

/-- Function `runAutomatic`, after the constructor: the call of
`initialize()` on the constructed manager. -/
def autoInit (w : World) (dm : DriverManager) : Bool × DriverManager :=
  initManager w dm

/-- Function `runAutomatic`, after a successful initialisation: the call of
`installDrivers()`. -/
def autoInstall (w : World) (dm : DriverManager) : Bool × DriverManager :=
  installDrivers w (autoInit w dm).2

/-- Function `runAutomatic`, after a successful install: the call of
`testDrivers()`. -/
def autoTest (w : World) (dm : DriverManager) : Bool × DriverManager :=
  testDrivers w (autoInstall w dm).2

/-- Function `runAutomatic`, the statements after the declaration
`DriverManager driverManager;`, on the constructed manager. -/
def runAutomaticBody (w : World) (dm : DriverManager) : Int × DriverManager :=
  let ini := autoInit w dm
  if !ini.1 then (1, ini.2)
  else
    let inst := autoInstall w dm
    if !inst.1 then (1, (restoreDefaultDrivers w inst.2).2)
    else
      let tst := autoTest w dm
      if !tst.1 then (1, (restoreDefaultDrivers w tst.2).2)
      else (0, tst.2)

/-- Function `runAutomatic`, started after the given history: its return value
and manager, or `Except.error` when the constructor threw. -/
def runAutomatic (w : World) (history : List Event) :
    Except (List Event) (Int × DriverManager) :=
  match DriverManager.construct w history with
  | Except.error h => Except.error h
  | Except.ok dm => Except.ok (runAutomaticBody w dm)

/-- How the process ends: `main` returns a status, or an exception nobody
catches reaches `std::terminate`, which calls `abort()` (the process is killed
by SIGABRT; a shell shows 134). -/
inductive Termination where
  /-- Return of `main` with this status -/
  | exited (status : Int)
  /-- Call of `std::terminate` after an uncaught exception -/
  | aborted
  deriving DecidableEq, Repr

/-- Text written to `/etc/systemd/system/auto-driver-installer.service`. -/
def serviceUnit : String :=
  "[Unit]\nDescription=Automatic Graphics Driver Installer\nAfter=network.target\n\n" ++
  "[Service]\nType=oneshot\nExecStart=/usr/bin/auto-driver-installer --auto\n" ++
  "RemainAfterExit=yes\n\n[Install]\nWantedBy=multi-user.target\n"

/-- Function `createSystemdService`. -/
def createSystemdService (w : World) (history : List Event) : List Event :=
  if w.ofstreamOpens history "/etc/systemd/system/auto-driver-installer.service" then
    history ++ [Event.writeFile "/etc/systemd/system/auto-driver-installer.service" serviceUnit]
  else history

/-- Function `main`: `argv` holds the program name and its arguments; the
result is how the process ends and the history of the whole process. -/
def main (w : World) (argv : List String) : Termination × List Event :=
  if argv.length > 1 ∧ argv[1]? = some "--auto" then
    match runAutomatic w [] with
    | Except.error h => (Termination.aborted, h)
    | Except.ok r => (Termination.exited r.1, r.2.history)
  else if argv.length > 1 ∧ argv[1]? = some "--install-service" then
    let h1 := createSystemdService w []
    let h2 := h1 ++ [Event.system "systemctl enable auto-driver-installer.service"]
    (Termination.exited 0, h2 ++ [Event.print
      "Usługa automatycznej instalacji sterowników została zainstalowana i włączona.\n"])
  else
    match DriverManager.construct w [] with
    | Except.error h => (Termination.aborted, h)
    | Except.ok dm =>
        let r := run w dm
        (Termination.exited r.1, r.2.history)

/-! ## Reference definitions and observations used by the theorems -/

/-- What the loop keeps true: the flag is still set exactly when no recorded
routine failed, and every record is the return value of the routine chosen for
its device. -/
def InstallLoop.Sound (w : World) (l : InstallLoop) : Prop :=
  (l.allSuccess = true ↔ ∀ o ∈ l.outcomes, o.succeeded = true) ∧
  (∀ o ∈ l.outcomes, ∃ routine dm', vendorRoutine w o.device = some routine ∧
      (routine dm').1 = o.succeeded)

/-- The `isPrimary` flags of the devices appended to a list `before`. -/
def PrimaryFlags (before appended : List GraphicsDevice) : Prop :=
  ∀ i d, appended[i]? = some d → d.isPrimary = (before.isEmpty && decide (i = 0))

/-- Reference for the pass of the driver installer over a device list, after
section 4.5 of the specification, started on a manager `dm`. The devices are
taken in list order. A device whose vendor is not NVIDIA, AMD or Intel is
skipped: a line is logged, no routine runs, nothing is recorded. For any other
device the routine of its vendor runs once, on the manager as the devices
before left it; its return value is recorded as the outcome of that device; a
failure is logged as a warning and the pass goes on with the next device, on
the manager the routine returned. The result is the list of outcomes and the
manager after the last device. -/
def installPass (w : World) :
    List GraphicsDevice → DriverManager → List InstallOutcome × DriverManager
  | [], dm => ([], dm)
  | d :: ds, dm =>
      let dm0 := logMessage dm ("Instalacja sterowników dla: " ++ d.vendor ++ " " ++ d.model)
      if d.vendor = "NVIDIA" ∨ d.vendor = "AMD" ∨ d.vendor = "Intel" then
        let r :=
          if d.vendor = "NVIDIA" then installNvidiaDrivers w d dm0
          else if d.vendor = "AMD" then installAmdDrivers w d dm0
          else installIntelDrivers w d dm0
        let dm1 :=
          if r.1 then r.2
          else logMessage r.2
            ("OSTRZEŻENIE: Nie udało się zainstalować sterowników dla " ++ d.vendor ++ " " ++
              d.model)
        let rest := installPass w ds dm1
        ({ device := d, succeeded := r.1 } :: rest.1, rest.2)
      else
        installPass w ds (logMessage dm0
          "Nieznany producent karty graficznej. Pomijanie instalacji sterowników.")

/-- Reference for `installDrivers`, after sections 3 and 4.5 of the
specification: the pass over the detected devices, and success only if every
recorded outcome succeeded. -/
def installReference (w : World) (dm : DriverManager) : Bool × DriverManager :=
  let pass := installPass w dm.detectedDevices
    (logMessage dm "Rozpoczęcie instalacji sterowników...")
  let ok := pass.1.all (fun o => o.succeeded)
  (ok, logMessage pass.2
    (if ok then "Instalacja sterowników zakończona pomyślnie"
     else "Instalacja zakończona z ostrzeżeniami lub błędami"))

/-- Reference for the current-driver probe, after section 4.2 of the
specification: `loaded m` says whether the module list shows `m`. -/
def probeDriver (vendorId : String) (loaded : String → Bool) : String :=
  if vendorId = "10de" then
    if loaded "nouveau" then "nouveau" else if loaded "nvidia" then "nvidia" else "unknown"
  else if vendorId = "1002" then
    if loaded "amdgpu" then "amdgpu" else if loaded "radeon" then "radeon" else "unknown"
  else if vendorId = "8086" then "intel"
  else "unknown"

/-- Reference for the rollback of one device, after section 4.7 of the
specification: the package operations it calls for. -/
def rollbackOps (device : GraphicsDevice) : List Event :=
  if device.vendor = "NVIDIA" then
    [Event.popen "dnf remove -y akmod-nvidia xorg-x11-drv-nvidia*",
     Event.popen "dnf install -y xorg-x11-drv-nouveau"]
  else if device.vendor = "AMD" then
    [Event.popen "dnf reinstall -y mesa-dri-drivers mesa-libGL xorg-x11-drv-amdgpu"]
  else []

/-- The first effect of the vendor routine for a device: its entry line in the
log (`Instalacja sterowników NVIDIA...`, `... AMD...`, `... Intel...`). -/
def routineEntry (device : GraphicsDevice) : Event :=
  Event.log ("Instalacja sterowników " ++ device.vendor ++ "...")

/-- Whether an event is the entry line of one of the three vendor routines. -/
def isRoutineEntry (e : Event) : Bool :=
  e = Event.log "Instalacja sterowników NVIDIA..." ∨
  e = Event.log "Instalacja sterowników AMD..." ∨
  e = Event.log "Instalacja sterowników Intel..."

/-- Whether an event is the warning `installDrivers` logs for a device whose
routine returned false. -/
def isFailureWarning : Event → Bool
  | Event.log m =>
      "OSTRZEŻENIE: Nie udało się zainstalować sterowników dla ".data.isPrefixOf m.data
  | _ => false

/-- What the loop keeps true of the history, started from the history `base`:
the routine entry lines logged since are those of the recorded outcomes, in
order, and the failure warnings logged since are as many as the recorded
failures. -/
def InstallLoop.Traced (base : List Event) (l : InstallLoop) : Prop :=
  l.dm.history.filter isRoutineEntry =
      base.filter isRoutineEntry ++ l.outcomes.map (fun o => routineEntry o.device) ∧
  (l.dm.history.filter isFailureWarning).length =
      (base.filter isFailureWarning).length + (l.outcomes.filter (fun o => !o.succeeded)).length

/-- The first effect of `restoreDefaultDrivers`: its entry line in the log. -/
def rollbackEntry : Event := Event.log "Przywracanie domyślnych sterowników..."

/-- How many times `restoreDefaultDrivers` was entered in a history. -/
def rollbackCount (history : List Event) : Nat := history.count rollbackEntry

/-- A world whose answers do not depend on the history: directories can be
created, files can be opened, and every read from standard input gives the
line `answer`. -/
def World.fixed (euid : Nat) (status : String → Int) (output : String → String)
    (present : String → Bool) (answer : String) : World :=
  { euid := euid
    systemStatus := fun _ cmd => status cmd
    popenOutput := fun _ cmd => output cmd
    fsExists := fun _ path => present path
    ofstreamOpens := fun _ _ => true
    createDirectoriesOk := fun _ _ => true
    stdinLine := fun _ => some answer }

/-- A manager with the given devices and flag and an empty history. -/
def DriverManager.ofDevices (devices : List GraphicsDevice) (flag : Bool) : DriverManager :=
  { detectedDevices := devices, rpmFusionEnabled := flag, history := [] }

/-- Example device: an NVIDIA card. -/
def sampleNvidia : GraphicsDevice :=
  { pciId := "10de:1c82", vendor := "NVIDIA", model := "", currentDriver := "nouveau",
    isPrimary := true }

/-- Example device: an AMD card. -/
def sampleAmd : GraphicsDevice :=
  { pciId := "1002:67df", vendor := "AMD", model := "", currentDriver := "amdgpu",
    isPrimary := false }

/-- Example device: an Intel adapter. -/
def sampleIntel : GraphicsDevice :=
  { pciId := "8086:0166", vendor := "Intel", model := "", currentDriver := "intel",
    isPrimary := true }

/-- Example world: the user is root, every command exits with status 0 except
the AMD package install, nothing exists on disk, the user answers "t". -/
def worldAmdFails : World :=
  World.fixed 0
    (fun cmd =>
      if cmd = "dnf install -y mesa-dri-drivers mesa-libGL mesa-vulkan-drivers xorg-x11-drv-amdgpu"
      then 1 else 0)
    (fun _ => "") (fun _ => false) "t"

/-- Example world: the repository check and the "free" registration fail,
everything else exits with status 0. -/
def worldFreeFails : World :=
  World.fixed 0
    (fun cmd =>
      if cmd = "dnf repolist | grep -q rpmfusion" then 1
      else if cmd = rpmFusionFreeCmd then 1 else 0)
    (fun _ => "") (fun _ => false) "t"

/-- One line of `lspci -nn` output for an NVIDIA VGA controller. -/
def vgaLine : String :=
  "01:00.0 VGA compatible controller [0300]: NVIDIA Corporation GP107 " ++
  "[GeForce GTX 1050 Ti] [10de:1c82] (rev a1)"

/-- Example world: the user is root, every command exits with status 0,
`lspci` reports one NVIDIA VGA controller. -/
def worldOneVga : World :=
  World.fixed 0 (fun _ => 0) (fun _ => vgaLine ++ "\n") (fun _ => false) "t"

/-- Example world: both `nouveau` and `nvidia` show in the module list, no
other module does. -/
def worldBothNvidiaModules : World :=
  World.fixed 0
    (fun cmd =>
      if cmd = "lsmod | grep -q nouveau" then 0
      else if cmd = "lsmod | grep -q nvidia" then 0 else 1)
    (fun _ => "") (fun _ => false) "t"

/-- Example world: every command exits with status 0 except the module check
for `nvidia`. -/
def worldModuleMissing : World :=
  World.fixed 0 (fun cmd => if cmd = "lsmod | grep -q nvidia" then 1 else 0)
    (fun _ => "") (fun _ => false) "t"

/-- One line of `lspci -nn` output for an NVIDIA 3D controller. -/
def line3D : String :=
  "01:00.0 3D controller [0302]: NVIDIA Corporation GM107M [GeForce GTX 950M] " ++
  "[10de:139a] (rev a2)"

/-- One line of `lspci -nn` output for an Intel Display controller. -/
def lineDisplay : String :=
  "00:02.0 Display controller [0380]: Intel Corporation HD Graphics 620 [8086:5916] (rev 02)"

/-- Example world: the user is root, every command exits with status 0,
`lspci` reports one 3D controller. -/
def world3D : World :=
  World.fixed 0 (fun _ => 0) (fun _ => line3D ++ "\n") (fun _ => false) "t"

/-- Example world: the user is root, every command exits with status 0,
`lspci` reports one Display controller. -/
def worldDisplay : World :=
  World.fixed 0 (fun _ => 0) (fun _ => lineDisplay ++ "\n") (fun _ => false) "t"

/-- Example world: the user is root and answers "t", `lspci` reports one NVIDIA
VGA controller, every command exits with status 0 except the three probes for
a display server. -/
def worldNoDisplayServer : World :=
  World.fixed 0
    (fun cmd =>
      if cmd = "pgrep -x Xorg > /dev/null" ∨ cmd = "pgrep -x X > /dev/null" ∨
          cmd = "pgrep -x wayland > /dev/null" then 1
      else 0)
    (fun _ => vgaLine ++ "\n") (fun _ => false) "t"

/-- An enumeration line that ends right after the bracketed pair. -/
def vgaLineBare : String := "00:02.0 VGA compatible controller [8086:0166]"

/-- An enumeration line with `: ` and a description after the bracketed pair. -/
def vgaLineDescribed : String :=
  "00:02.0 VGA compatible controller [8086:0166]: Intel HD Graphics 4000"

/-- Example world: the user is root, every command exits with status 0,
`lspci` reports the line without a trailing description. -/
def worldBareVga : World :=
  World.fixed 0 (fun _ => 0) (fun _ => vgaLineBare ++ "\n") (fun _ => false) "t"

/-- Example world: the user is root, every command exits with status 0,
`lspci` reports the line with a trailing description. -/
def worldDescribedVga : World :=
  World.fixed 0 (fun _ => 0) (fun _ => vgaLineDescribed ++ "\n") (fun _ => false) "t"

/-- The manager the constructor leaves when neither directory existed and both
could be created. -/
def constructedManager : DriverManager :=
  { detectedDevices := [], rpmFusionEnabled := false,
    history := [Event.createDirectories "/var/lib/driver-installer",
      Event.createDirectories "/var/lib/driver-installer/backup"] }

/-- Example world: standard input holds the single character `t` with no
newline after it, so the first `std::getline` reads `t` and reaches the end of
the stream, and every later `std::getline` finds the stream no longer good. The
user is root, `lspci` reports one NVIDIA VGA controller, `nouveau` shows in the
module list, every other command exits with status 1 (no repository can be
reached), nothing exists on disk yet and directories can be created. -/
def worldStaleAnswer : World :=
  { euid := 0
    systemStatus := fun _ cmd => if cmd = "lsmod | grep -q nouveau" then 0 else 1
    popenOutput := fun _ _ => vgaLine ++ "\n"
    fsExists := fun _ _ => false
    ofstreamOpens := fun _ _ => true
    createDirectoriesOk := fun _ _ => true
    stdinLine := fun h => if Event.readLine ∈ h then none else some "t" }

/-- Example world: the user is not root (uid 1000), `/var/lib/driver-installer`
does not exist and cannot be created by this user. -/
def worldNotRoot : World :=
  { euid := 1000
    systemStatus := fun _ _ => 1
    popenOutput := fun _ _ => vgaLine ++ "\n"
    fsExists := fun _ _ => false
    ofstreamOpens := fun _ _ => false
    createDirectoriesOk := fun _ _ => false
    stdinLine := fun _ => some "t" }

/-- Example world: the user is not root (uid 1000) and both directories of the
constructor exist already. -/
def worldNotRootDirsPresent : World :=
  { euid := 1000
    systemStatus := fun _ _ => 1
    popenOutput := fun _ _ => vgaLine ++ "\n"
    fsExists := fun _ path =>
      path = "/var/lib/driver-installer" ∨ path = "/var/lib/driver-installer/backup"
    ofstreamOpens := fun _ _ => false
    createDirectoriesOk := fun _ _ => false
    stdinLine := fun _ => some "t" }

/-! # Theorems -/

/-! ## Helper lemmas: loops -/

theorem foldl_keeps {σ α : Type} (P : σ → Prop) (f : σ → α → σ)
    (hf : ∀ s a, P s → P (f s a)) (l : List α) (s : σ) (hs : P s) : P (l.foldl f s) := by
  induction l generalizing s with
  | nil => exact hs
  | cons a l ih => exact ih _ (hf s a hs)

/-! ## Helper lemmas: the constructor -/

theorem ensureDirectory_ok (w : World) (path : String) (dm dm1 : DriverManager)
    (h : ensureDirectory w path dm = Except.ok dm1) :
    dm1.detectedDevices = dm.detectedDevices ∧ dm1.rpmFusionEnabled = dm.rpmFusionEnabled ∧
    (dm1.history = dm.history ∨ dm1.history = dm.history ++ [Event.createDirectories path]) := by
  unfold ensureDirectory at h
  split_ifs at h
  · cases h
    exact ⟨rfl, rfl, Or.inr rfl⟩
  · cases h
    exact ⟨rfl, rfl, Or.inl rfl⟩

theorem construct_ok (w : World) (history : List Event) (dm : DriverManager)
    (h : DriverManager.construct w history = Except.ok dm) :
    dm.detectedDevices = [] ∧ dm.rpmFusionEnabled = false ∧
    ∃ added, dm.history = history ++ added ∧
      ∀ e ∈ added, e = Event.createDirectories "/var/lib/driver-installer" ∨
        e = Event.createDirectories backupDir := by
  unfold DriverManager.construct at h
  simp only at h
  cases h1 : ensureDirectory w "/var/lib/driver-installer"
      { detectedDevices := [], rpmFusionEnabled := false, history := history } with
  | error e => rw [h1] at h; cases h
  | ok dm1 =>
      rw [h1] at h
      obtain ⟨a1, a2, a3⟩ := ensureDirectory_ok w _ _ _ h1
      obtain ⟨b1, b2, b3⟩ := ensureDirectory_ok w _ _ _ h
      refine ⟨b1.trans a1, b2.trans a2, ?_⟩
      rcases a3 with a3 | a3 <;> rcases b3 with b3 | b3
      · exact ⟨[], by simp [b3, a3], by simp⟩
      · exact ⟨[Event.createDirectories backupDir], by simp [b3, a3], by simp⟩
      · exact ⟨[Event.createDirectories "/var/lib/driver-installer"], by simp [b3, a3],
          by simp⟩
      · exact ⟨[Event.createDirectories "/var/lib/driver-installer",
          Event.createDirectories backupDir], by simp [b3, a3], by simp⟩

/-! ## Helper lemmas: the install loop -/

theorem vendorRoutine_isSome (w : World) (d : GraphicsDevice) :
    (vendorRoutine w d).isSome =
      decide (d.vendor = "NVIDIA" ∨ d.vendor = "AMD" ∨ d.vendor = "Intel") := by
  unfold vendorRoutine
  by_cases h1 : d.vendor = "NVIDIA"
  · simp [h1]
  · by_cases h2 : d.vendor = "AMD"
    · simp [h1, h2]
    · by_cases h3 : d.vendor = "Intel" <;> simp [h1, h2, h3]

theorem installStep_outcomes (w : World) (acc : InstallLoop) (d : GraphicsDevice) :
    (installStep w acc d).outcomes.map InstallOutcome.device =
      acc.outcomes.map InstallOutcome.device ++
        [d].filter (fun d => d.vendor = "NVIDIA" ∨ d.vendor = "AMD" ∨ d.vendor = "Intel") := by
  have hs := vendorRoutine_isSome w d
  unfold installStep
  cases hr : vendorRoutine w d with
  | none =>
      rw [hr] at hs
      have hk : ¬ (d.vendor = "NVIDIA" ∨ d.vendor = "AMD" ∨ d.vendor = "Intel") := by
        simpa using hs.symm
      simp [List.filter, hk]
  | some routine =>
      rw [hr] at hs
      have hk : d.vendor = "NVIDIA" ∨ d.vendor = "AMD" ∨ d.vendor = "Intel" := by
        simpa using hs.symm
      cases hb : (routine (logMessage acc.dm
        ("Instalacja sterowników dla: " ++ d.vendor ++ " " ++ d.model))).1 <;>
        simp [List.filter, hk, hb]

theorem installFold_outcomes (w : World) (ds : List GraphicsDevice) (acc : InstallLoop) :
    (ds.foldl (installStep w) acc).outcomes.map InstallOutcome.device =
      acc.outcomes.map InstallOutcome.device ++
        ds.filter (fun d => d.vendor = "NVIDIA" ∨ d.vendor = "AMD" ∨ d.vendor = "Intel") := by
  induction ds generalizing acc with
  | nil => simp
  | cons d ds ih =>
      rw [List.foldl_cons, ih, installStep_outcomes, List.append_assoc, ← List.filter_append]
      rfl

theorem installStep_sound (w : World) (acc : InstallLoop) (d : GraphicsDevice)
    (h : acc.Sound w) : (installStep w acc d).Sound w := by
  obtain ⟨h1, h2⟩ := h
  unfold installStep
  cases hr : vendorRoutine w d with
  | none => exact ⟨h1, h2⟩
  | some routine =>
      cases hb : (routine (logMessage acc.dm
        ("Instalacja sterowników dla: " ++ d.vendor ++ " " ++ d.model))).1
      · refine ⟨?_, ?_⟩
        · simp only [hb, Bool.not_false, if_true]
          constructor
          · intro hf; cases hf
          · intro hall
            have := hall ⟨d, false⟩ (by simp)
            cases this
        · simp only [hb, Bool.not_false, if_true]
          intro o ho
          rcases List.mem_append.1 ho with ho | ho
          · exact h2 o ho
          · rw [List.mem_singleton] at ho
            subst ho
            exact ⟨routine, _, hr, hb⟩
      · refine ⟨?_, ?_⟩
        · simp only [hb, Bool.not_true]
          constructor
          · intro ha o ho
            rcases List.mem_append.1 ho with ho | ho
            · exact h1.1 ha o ho
            · rw [List.mem_singleton] at ho
              subst ho; rfl
          · intro hall
            exact h1.2 (fun o ho => hall o (List.mem_append.2 (Or.inl ho)))
        · simp only [hb, Bool.not_true]
          intro o ho
          rcases List.mem_append.1 ho with ho | ho
          · exact h2 o ho
          · rw [List.mem_singleton] at ho
            subst ho
            exact ⟨routine, _, hr, hb⟩

theorem installFold_sound (w : World) (ds : List GraphicsDevice) (acc : InstallLoop)
    (h : acc.Sound w) : (ds.foldl (installStep w) acc).Sound w := by
  induction ds generalizing acc with
  | nil => simpa using h
  | cons d ds ih =>
      rw [List.foldl_cons]
      exact ih _ (installStep_sound w acc d h)

theorem installLoop_sound (w : World) (dm : DriverManager) : (installLoop w dm).Sound w := by
  unfold installLoop
  apply installFold_sound
  exact ⟨by simp, by simp⟩

theorem isRoutineEntry_dla (v m : String) :
    isRoutineEntry (Event.log ("Instalacja sterowników dla: " ++ v ++ " " ++ m)) = false := by
  have h : ∀ t : String, t.data.get? 23 ≠ some 'd' →
      ¬ ("Instalacja sterowników dla: " ++ v ++ " " ++ m = t) := by
    intro t ht e
    apply ht
    rw [← e]
    simp [String.data_append]
  simp [isRoutineEntry, h]

theorem isRoutineEntry_warning (v m : String) :
    isRoutineEntry (Event.log
      ("OSTRZEŻENIE: Nie udało się zainstalować sterowników dla " ++ v ++ " " ++ m)) = false := by
  have h : ∀ t : String, t.data.head? ≠ some 'O' →
      ¬ ("OSTRZEŻENIE: Nie udało się zainstalować sterowników dla " ++ v ++ " " ++ m = t) := by
    intro t ht e
    apply ht
    rw [← e]
    simp [String.data_append]
  simp [isRoutineEntry, h]

theorem isFailureWarning_dla (v m : String) :
    isFailureWarning (Event.log ("Instalacja sterowników dla: " ++ v ++ " " ++ m)) = false := by
  simp [isFailureWarning, String.data_append, List.isPrefixOf]

theorem isFailureWarning_warning (v m : String) :
    isFailureWarning (Event.log
      ("OSTRZEŻENIE: Nie udało się zainstalować sterowników dla " ++ v ++ " " ++ m)) = true := by
  simp [isFailureWarning, String.data_append, List.isPrefixOf]

theorem vendorRoutine_trace (w : World) (d : GraphicsDevice)
    (routine : DriverManager → Bool × DriverManager) (h : vendorRoutine w d = some routine)
    (dm : DriverManager) :
    (routine dm).2.history.filter isRoutineEntry =
        dm.history.filter isRoutineEntry ++ [routineEntry d] ∧
    (routine dm).2.history.filter isFailureWarning = dm.history.filter isFailureWarning := by
  unfold vendorRoutine at h
  split_ifs at h with h1 h2 h3 <;> simp only [Option.some.injEq] at h <;> subst h
  · simp only [installNvidiaDrivers, system, logMessage, DriverManager.emit]
    split_ifs <;>
      simp [List.filter_append, List.filter_cons, isRoutineEntry, isFailureWarning,
        routineEntry, h1, List.isPrefixOf]
  · simp only [installAmdDrivers, writeConfig, system, logMessage, DriverManager.emit]
    split_ifs <;>
      simp [List.filter_append, List.filter_cons, isRoutineEntry, isFailureWarning,
        routineEntry, h2, List.isPrefixOf]
  · simp only [installIntelDrivers, writeConfig, system, logMessage, DriverManager.emit]
    split_ifs <;>
      simp [List.filter_append, List.filter_cons, isRoutineEntry, isFailureWarning,
        routineEntry, h3, List.isPrefixOf]

theorem installStep_trace (w : World) (base : List Event) (acc : InstallLoop)
    (d : GraphicsDevice) (hacc : acc.Traced base) : (installStep w acc d).Traced base := by
  obtain ⟨h1, h2⟩ := hacc
  simp only [installStep]
  cases hr : vendorRoutine w d with
  | none =>
      have hN1 : isRoutineEntry (Event.log
          "Nieznany producent karty graficznej. Pomijanie instalacji sterowników.") = false := by
        decide
      have hN2 : isFailureWarning (Event.log
          "Nieznany producent karty graficznej. Pomijanie instalacji sterowników.") = false := by
        decide
      constructor
      · simp [logMessage, DriverManager.emit, List.filter_append, List.filter_cons,
          isRoutineEntry_dla, h1, hN1]
      · simp [logMessage, DriverManager.emit, List.filter_append, List.filter_cons,
          isFailureWarning_dla, h2, hN2]
  | some routine =>
      have ht := vendorRoutine_trace w d routine hr
        (logMessage acc.dm ("Instalacja sterowników dla: " ++ d.vendor ++ " " ++ d.model))
      have e1 : (logMessage acc.dm ("Instalacja sterowników dla: " ++ d.vendor ++ " " ++
          d.model)).history.filter isRoutineEntry = acc.dm.history.filter isRoutineEntry := by
        simp [logMessage, DriverManager.emit, List.filter_append, List.filter_cons,
          isRoutineEntry_dla]
      have e2 : (logMessage acc.dm ("Instalacja sterowników dla: " ++ d.vendor ++ " " ++
          d.model)).history.filter isFailureWarning =
          acc.dm.history.filter isFailureWarning := by
        simp [logMessage, DriverManager.emit, List.filter_append, List.filter_cons,
          isFailureWarning_dla]
      rw [e1] at ht
      rw [e2] at ht
      cases hb : (routine (logMessage acc.dm
        ("Instalacja sterowników dla: " ++ d.vendor ++ " " ++ d.model))).1
      · constructor
        · simp only [hb, Bool.not_false, if_true]
          rw [show ∀ (x : DriverManager) (m : String),
              (logMessage x m).history = x.history ++ [Event.log m] from fun _ _ => rfl]
          rw [List.filter_append, ht.1, h1]
          simp [List.filter_cons, isRoutineEntry_warning]
        · simp only [hb, Bool.not_false, if_true]
          rw [show ∀ (x : DriverManager) (m : String),
              (logMessage x m).history = x.history ++ [Event.log m] from fun _ _ => rfl]
          rw [List.filter_append, ht.2, List.length_append, h2]
          simp [List.filter_cons, isFailureWarning_warning, List.filter_append, hb]
          omega
      · constructor
        · simp only [hb, Bool.not_true]
          simp [ht.1, h1]
        · simp only [hb, Bool.not_true]
          simp [ht.2, h2, List.filter_append]

theorem installLoop_trace (w : World) (dm : DriverManager) :
    (installLoop w dm).Traced dm.history := by
  unfold installLoop
  apply foldl_keeps (fun l : InstallLoop => l.Traced dm.history) (installStep w)
    (fun s a hs => installStep_trace w dm.history s a hs)
  constructor
  · simp [logMessage, DriverManager.emit, List.filter_append, List.filter_cons, isRoutineEntry]
  · simp [logMessage, DriverManager.emit, List.filter_append, List.filter_cons,
      isFailureWarning, List.isPrefixOf]

theorem installStep_eq_pass (w : World) (acc : InstallLoop) (d : GraphicsDevice)
    (ds : List GraphicsDevice) :
    (installPass w (d :: ds) acc.dm).2 = (installPass w ds (installStep w acc d).dm).2 ∧
    acc.outcomes ++ (installPass w (d :: ds) acc.dm).1 =
      (installStep w acc d).outcomes ++ (installPass w ds (installStep w acc d).dm).1 ∧
    (acc.allSuccess && (installPass w (d :: ds) acc.dm).1.all (fun o => o.succeeded)) =
      ((installStep w acc d).allSuccess &&
        (installPass w ds (installStep w acc d).dm).1.all (fun o => o.succeeded)) := by
  by_cases h1 : d.vendor = "NVIDIA"
  · have hv : vendorRoutine w d = some (installNvidiaDrivers w d) := by
      simp [vendorRoutine, h1]
    have hk : d.vendor = "NVIDIA" ∨ d.vendor = "AMD" ∨ d.vendor = "Intel" := Or.inl h1
    simp only [installPass, installStep, hv, if_pos hk, if_pos h1]
    cases hb : (installNvidiaDrivers w d (logMessage acc.dm
        ("Instalacja sterowników dla: " ++ d.vendor ++ " " ++ d.model))).1 <;> simp [hb]
  · by_cases h2 : d.vendor = "AMD"
    · have hv : vendorRoutine w d = some (installAmdDrivers w d) := by
        simp [vendorRoutine, h1, h2]
      have hk : d.vendor = "NVIDIA" ∨ d.vendor = "AMD" ∨ d.vendor = "Intel" :=
        Or.inr (Or.inl h2)
      simp only [installPass, installStep, hv, if_pos hk, if_neg h1, if_pos h2]
      cases hb : (installAmdDrivers w d (logMessage acc.dm
          ("Instalacja sterowników dla: " ++ d.vendor ++ " " ++ d.model))).1 <;> simp [hb]
    · by_cases h3 : d.vendor = "Intel"
      · have hv : vendorRoutine w d = some (installIntelDrivers w d) := by
          simp [vendorRoutine, h1, h2, h3]
        have hk : d.vendor = "NVIDIA" ∨ d.vendor = "AMD" ∨ d.vendor = "Intel" :=
          Or.inr (Or.inr h3)
        simp only [installPass, installStep, hv, if_pos hk, if_neg h1, if_neg h2]
        cases hb : (installIntelDrivers w d (logMessage acc.dm
            ("Instalacja sterowników dla: " ++ d.vendor ++ " " ++ d.model))).1 <;> simp [hb]
      · have hv : vendorRoutine w d = none := by
          simp [vendorRoutine, h1, h2, h3]
        have hk : ¬ (d.vendor = "NVIDIA" ∨ d.vendor = "AMD" ∨ d.vendor = "Intel") := by
          rintro (h | h | h)
          · exact h1 h
          · exact h2 h
          · exact h3 h
        simp only [installPass, installStep, hv, if_neg hk]
        exact ⟨trivial, trivial, trivial⟩

theorem installFold_eq_pass (w : World) (ds : List GraphicsDevice) (acc : InstallLoop) :
    (ds.foldl (installStep w) acc).dm = (installPass w ds acc.dm).2 ∧
    (ds.foldl (installStep w) acc).outcomes = acc.outcomes ++ (installPass w ds acc.dm).1 ∧
    (ds.foldl (installStep w) acc).allSuccess =
      (acc.allSuccess && (installPass w ds acc.dm).1.all (fun o => o.succeeded)) := by
  induction ds generalizing acc with
  | nil => simp [installPass]
  | cons d ds ih =>
      rw [List.foldl_cons]
      obtain ⟨a1, a2, a3⟩ := ih (installStep w acc d)
      obtain ⟨b1, b2, b3⟩ := installStep_eq_pass w acc d ds
      exact ⟨a1.trans b1.symm, a2.trans b2.symm, a3.trans b3.symm⟩

theorem installDrivers_eq_reference (w : World) (dm : DriverManager) :
    installDrivers w dm = installReference w dm ∧
    installOutcomes w dm =
      (installPass w dm.detectedDevices
        (logMessage dm "Rozpoczęcie instalacji sterowników...")).1 := by
  obtain ⟨a1, a2, a3⟩ := installFold_eq_pass w dm.detectedDevices
    { allSuccess := true, outcomes := [],
      dm := logMessage dm "Rozpoczęcie instalacji sterowników..." }
  have hd : (logMessage dm "Rozpoczęcie instalacji sterowników...").detectedDevices =
      dm.detectedDevices := rfl
  constructor
  · simp only [installDrivers, installReference, installLoop, hd, a1, a3, Bool.true_and]
    split_ifs with h <;> simp [h]
  · simp only [installOutcomes, installLoop, hd, a2, List.nil_append]

theorem installDrivers_fst (w : World) (dm : DriverManager) :
    (installDrivers w dm).1 = (installLoop w dm).allSuccess := by
  unfold installDrivers
  cases h : (installLoop w dm).allSuccess <;> simp [h]

/-! ## C1: aggregation in `installDrivers` -/

/-- C1. `installDrivers` is the reference `installReference`: same return value
and same manager, so same history. It therefore takes the devices in list
order, runs for every device whose vendor is NVIDIA, AMD or Intel the routine
of that vendor exactly once, on the manager the devices before left, goes on
after a failure, and runs nothing for a device of another vendor. The recorded
outcomes are the devices of the three vendors in list order; the aggregate is
true exactly when every routine that ran returned true; the routine entry lines
the call logs are those of the recorded outcomes in order, and the failure
warnings it logs are as many as the recorded failures. With one NVIDIA device
whose install succeeds and one AMD device whose package install fails, in
either order, the aggregate is false and exactly one device, the AMD one, is
recorded as failed; with the NVIDIA device first the whole history is given. -/
theorem installDrivers_aggregate (w : World) (dm : DriverManager) :
    let pass := installPass w dm.detectedDevices
      (logMessage dm "Rozpoczęcie instalacji sterowników...")
    installDrivers w dm = installReference w dm ∧
    installOutcomes w dm = pass.1 ∧
    pass.1.map InstallOutcome.device =
        dm.detectedDevices.filter
          (fun d => d.vendor = "NVIDIA" ∨ d.vendor = "AMD" ∨ d.vendor = "Intel") ∧
    ((installDrivers w dm).1 = true ↔ ∀ o ∈ pass.1, o.succeeded = true) ∧
    ((installDrivers w dm).2.history.filter isRoutineEntry =
        dm.history.filter isRoutineEntry ++ pass.1.map (fun o => routineEntry o.device)) ∧
    (((installDrivers w dm).2.history.filter isFailureWarning).length =
        (dm.history.filter isFailureWarning).length +
          (pass.1.filter (fun o => !o.succeeded)).length) ∧
    (∀ dN dA : GraphicsDevice,
        dm.detectedDevices = [dN, dA] ∨ dm.detectedDevices = [dA, dN] →
        dN.vendor = "NVIDIA" → dA.vendor = "AMD" → dm.rpmFusionEnabled = true →
        (∀ h, w.systemStatus h
          "dnf install -y akmod-nvidia xorg-x11-drv-nvidia xorg-x11-drv-nvidia-cuda" = 0) →
        (∀ h, w.systemStatus h "lsmod | grep -q nvidia" = 0) →
        (∀ h, w.systemStatus h
          "dnf install -y mesa-dri-drivers mesa-libGL mesa-vulkan-drivers xorg-x11-drv-amdgpu"
            ≠ 0) →
        (installDrivers w dm).1 = false ∧
        pass.1.map InstallOutcome.device = dm.detectedDevices ∧
        pass.1.filter (fun o => !o.succeeded) = [{ device := dA, succeeded := false }] ∧
        (dm.detectedDevices = [dN, dA] →
          installDrivers w dm =
            (false, { dm with history := dm.history ++
              [Event.log "Rozpoczęcie instalacji sterowników...",
               Event.log ("Instalacja sterowników dla: " ++ dN.vendor ++ " " ++ dN.model),
               Event.log "Instalacja sterowników NVIDIA...",
               Event.system
                 "dnf install -y akmod-nvidia xorg-x11-drv-nvidia xorg-x11-drv-nvidia-cuda",
               Event.log "Oczekiwanie na zbudowanie modułu jądra NVIDIA...",
               Event.sleep 60,
               Event.system "lsmod | grep -q nvidia",
               Event.system "nvidia-xconfig",
               Event.log "Pomyślnie zainstalowano sterowniki NVIDIA",
               Event.log ("Instalacja sterowników dla: " ++ dA.vendor ++ " " ++ dA.model),
               Event.log "Instalacja sterowników AMD...",
               Event.system ("dnf install -y mesa-dri-drivers mesa-libGL " ++
                 "mesa-vulkan-drivers xorg-x11-drv-amdgpu"),
               Event.log "BŁĄD: Nie udało się zainstalować sterowników AMD",
               Event.log ("OSTRZEŻENIE: Nie udało się zainstalować sterowników dla " ++
                 dA.vendor ++ " " ++ dA.model),
               Event.log "Instalacja zakończona z ostrzeżeniami lub błędami"] }))) := by
  intro pass
  have hsound := installLoop_sound w dm
  have htrace := installLoop_trace w dm
  obtain ⟨href, hout⟩ := installDrivers_eq_reference w dm
  have hE1 : isRoutineEntry (Event.log "Instalacja sterowników zakończona pomyślnie") = false := by
    decide
  have hE2 : isRoutineEntry (Event.log "Instalacja zakończona z ostrzeżeniami lub błędami")
      = false := by decide
  have hW1 : isFailureWarning (Event.log "Instalacja sterowników zakończona pomyślnie")
      = false := by decide
  have hW2 : isFailureWarning (Event.log "Instalacja zakończona z ostrzeżeniami lub błędami")
      = false := by decide
  have hpass : pass.1 = installOutcomes w dm := hout.symm
  refine ⟨href, hout, ?_, ?_, ?_, ?_, ?_⟩
  · rw [hpass]
    unfold installOutcomes installLoop
    rw [installFold_outcomes]
    simp [logMessage, DriverManager.emit]
  · rw [hpass, installDrivers_fst]
    exact hsound.1
  · rw [hpass]
    simp only [installDrivers, installOutcomes]
    split_ifs <;>
      simp [logMessage, DriverManager.emit, List.filter_append, List.filter_cons, hE1, hE2,
        htrace.1]
  · rw [hpass]
    simp only [installDrivers, installOutcomes]
    split_ifs <;>
      simp [logMessage, DriverManager.emit, List.filter_append, List.filter_cons, hW1, hW2,
        htrace.2]
  · intro dN dA hds hN hA hflag hpkg hmod hamd
    have hNA : ¬ ("AMD" = "NVIDIA") := by decide
    have hcmd : ("dnf install -y mesa-dri-drivers mesa-libGL " ++
        "mesa-vulkan-drivers xorg-x11-drv-amdgpu") =
        "dnf install -y mesa-dri-drivers mesa-libGL mesa-vulkan-drivers xorg-x11-drv-amdgpu" := by
      decide
    rw [hpass, hcmd]
    refine ⟨?_, ?_, ?_, ?_⟩
    · unfold installDrivers installLoop
      rcases hds with hds | hds <;>
        simp [logMessage, DriverManager.emit, hds, installStep, vendorRoutine, hN, hA, hNA,
          installNvidiaDrivers, installAmdDrivers, system, hflag, hpkg, hmod, hamd]
    · unfold installOutcomes installLoop
      rcases hds with hds | hds <;>
        simp [logMessage, DriverManager.emit, hds, installStep, vendorRoutine, hN, hA, hNA,
          installNvidiaDrivers, installAmdDrivers, system, hflag, hpkg, hmod, hamd]
    · unfold installOutcomes installLoop
      rcases hds with hds | hds <;>
        simp [logMessage, DriverManager.emit, hds, installStep, vendorRoutine, hN, hA, hNA,
          installNvidiaDrivers, installAmdDrivers, system, hflag, hpkg, hmod, hamd]
    · intro hds'
      unfold installDrivers installLoop
      simp [logMessage, DriverManager.emit, hds', installStep, vendorRoutine, hN, hA, hNA,
        installNvidiaDrivers, installAmdDrivers, system, hflag, hpkg, hmod, hamd]

/-- C1, at a concrete input: an NVIDIA device followed by an AMD device, the AMD
package install exits with status 1. The NVIDIA routine runs in full (package
install, wait, module check, `nvidia-xconfig`), then the AMD routine runs and
stops at its failed package install. -/
theorem installDrivers_aggregate_witness :
    installDrivers worldAmdFails (DriverManager.ofDevices [sampleNvidia, sampleAmd] true) =
      (false,
        { detectedDevices := [sampleNvidia, sampleAmd], rpmFusionEnabled := true,
          history :=
            [Event.log "Rozpoczęcie instalacji sterowników...",
             Event.log "Instalacja sterowników dla: NVIDIA ",
             Event.log "Instalacja sterowników NVIDIA...",
             Event.system
               "dnf install -y akmod-nvidia xorg-x11-drv-nvidia xorg-x11-drv-nvidia-cuda",
             Event.log "Oczekiwanie na zbudowanie modułu jądra NVIDIA...",
             Event.sleep 60,
             Event.system "lsmod | grep -q nvidia",
             Event.system "nvidia-xconfig",
             Event.log "Pomyślnie zainstalowano sterowniki NVIDIA",
             Event.log "Instalacja sterowników dla: AMD ",
             Event.log "Instalacja sterowników AMD...",
             Event.system ("dnf install -y mesa-dri-drivers mesa-libGL " ++
               "mesa-vulkan-drivers xorg-x11-drv-amdgpu"),
             Event.log "BŁĄD: Nie udało się zainstalować sterowników AMD",
             Event.log "OSTRZEŻENIE: Nie udało się zainstalować sterowników dla AMD ",
             Event.log "Instalacja zakończona z ostrzeżeniami lub błędami"] }) :=
  ((installDrivers_aggregate worldAmdFails
      (DriverManager.ofDevices [sampleNvidia, sampleAmd] true)).2.2.2.2.2.2
    sampleNvidia sampleAmd (Or.inl rfl) rfl rfl rfl (fun _ => rfl) (fun _ => rfl)
    (fun _ => by simp [worldAmdFails, World.fixed])).2.2.2 rfl

/-! ## C2: the repository gate of `installNvidiaDrivers` -/

/-- C2. With the repository flag false, `installNvidiaDrivers` returns false and
its only effects are its two log lines: no command is run, nothing is written,
the manager is otherwise unchanged. For a device list holding one NVIDIA device
and the flag false, `installDrivers` returns false and the whole call adds
nothing but log lines to the history. -/
theorem installNvidiaDrivers_gate (w : World) (device : GraphicsDevice)
    (dm : DriverManager) (hflag : dm.rpmFusionEnabled = false) :
    installNvidiaDrivers w device dm =
      (false, { dm with history := dm.history ++
        [Event.log "Instalacja sterowników NVIDIA...",
         Event.log ("BŁĄD: Repozytoria RPM Fusion nie są włączone. " ++
           "Nie można zainstalować sterowników NVIDIA.")] }) ∧
    (dm.detectedDevices = [device] → device.vendor = "NVIDIA" →
      installDrivers w dm =
        (false, { dm with history := dm.history ++
          [Event.log "Rozpoczęcie instalacji sterowników...",
           Event.log ("Instalacja sterowników dla: " ++ device.vendor ++ " " ++ device.model),
           Event.log "Instalacja sterowników NVIDIA...",
           Event.log ("BŁĄD: Repozytoria RPM Fusion nie są włączone. " ++
             "Nie można zainstalować sterowników NVIDIA."),
           Event.log ("OSTRZEŻENIE: Nie udało się zainstalować sterowników dla " ++
             device.vendor ++ " " ++ device.model),
           Event.log "Instalacja zakończona z ostrzeżeniami lub błędami"] })) := by
  have hlit : ("BŁĄD: Repozytoria RPM Fusion nie są włączone. " ++
      "Nie można zainstalować sterowników NVIDIA.") =
      "BŁĄD: Repozytoria RPM Fusion nie są włączone. Nie można zainstalować sterowników NVIDIA." := by
    decide
  rw [hlit]
  constructor
  · simp [installNvidiaDrivers, logMessage, DriverManager.emit, hflag]
  · intro hds hv
    simp [installDrivers, installLoop, installStep, vendorRoutine, installNvidiaDrivers,
      logMessage, DriverManager.emit, hflag, hds, hv]

/-- C2, at a concrete input: one NVIDIA device, flag false. -/
theorem installNvidiaDrivers_gate_witness :
    (installNvidiaDrivers worldAmdFails sampleNvidia
        (DriverManager.ofDevices [sampleNvidia] false)).1 = false ∧
    (installDrivers worldAmdFails (DriverManager.ofDevices [sampleNvidia] false)).1 = false :=
  ⟨congrArg Prod.fst
      (installNvidiaDrivers_gate worldAmdFails sampleNvidia
        (DriverManager.ofDevices [sampleNvidia] false) rfl).1,
   congrArg Prod.fst
      ((installNvidiaDrivers_gate worldAmdFails sampleNvidia
        (DriverManager.ofDevices [sampleNvidia] false) rfl).2 rfl rfl)⟩

/-! ## C3: the repository flag after `enableRepositories` -/

/-- C3. On a manager whose repository flag is false (as the constructor leaves
it), after `enableRepositories` the flag is true exactly when the repository
check exited with 0 or both registrations exited with 0; so when the check
fails and one registration fails the flag is false. When the check exits with
0 the only command run is the check itself. -/
theorem enableRepositories_flag (w : World) (dm : DriverManager)
    (hflag : dm.rpmFusionEnabled = false) :
    let h0 := dm.history ++ [Event.log "Sprawdzanie i włączanie repozytoriów..."]
    let h1 := h0 ++ [Event.system "dnf repolist | grep -q rpmfusion"]
    let h2 := h1 ++ [Event.system rpmFusionFreeCmd]
    let check := w.systemStatus h0 "dnf repolist | grep -q rpmfusion"
    let free := w.systemStatus h1 rpmFusionFreeCmd
    let nonfree := w.systemStatus h2 rpmFusionNonfreeCmd
    ((enableRepositories w dm).rpmFusionEnabled = true ↔
        check = 0 ∨ (free = 0 ∧ nonfree = 0)) ∧
    (check ≠ 0 → (free ≠ 0 ∨ nonfree ≠ 0) →
        (enableRepositories w dm).rpmFusionEnabled = false) ∧
    (check = 0 →
        (enableRepositories w dm).history =
          h1 ++ [Event.log "Repozytoria RPM Fusion są już włączone"]) ∧
    (∀ history dm0, DriverManager.construct w history = Except.ok dm0 →
        dm0.rpmFusionEnabled = false) := by
  intro h0 h1 h2 check free nonfree
  have hc : (system w "dnf repolist | grep -q rpmfusion"
      (logMessage dm "Sprawdzanie i włączanie repozytoriów...")).1 = check := rfl
  have hf : (system w rpmFusionFreeCmd (system w "dnf repolist | grep -q rpmfusion"
      (logMessage dm "Sprawdzanie i włączanie repozytoriów...")).2).1 = free := rfl
  have hn : (system w rpmFusionNonfreeCmd (system w rpmFusionFreeCmd
      (system w "dnf repolist | grep -q rpmfusion"
        (logMessage dm "Sprawdzanie i włączanie repozytoriów...")).2).2).1 = nonfree := rfl
  refine ⟨?_, ?_, ?_, ?_⟩
  · unfold enableRepositories
    simp only [hc, hf, hn]
    by_cases h : check = 0
    · simp [h]
    · by_cases h' : free = 0 ∧ nonfree = 0
      · simp [h, h']
      · simp [h, h', logMessage, DriverManager.emit, system, hflag]
  · intro hcheck hreg
    unfold enableRepositories
    simp only [hc, hf, hn]
    have h' : ¬ (free = 0 ∧ nonfree = 0) := by
      rintro ⟨a, b⟩
      rcases hreg with h | h
      · exact h a
      · exact h b
    simp [hcheck, h', logMessage, DriverManager.emit, system, hflag]
  · intro hcheck
    unfold enableRepositories
    simp only [hc]
    simp [hcheck, logMessage, DriverManager.emit, system, h1, h0]
  · intro history dm0 hdm0
    exact (construct_ok w history dm0 hdm0).2.1

/-- C3, at a concrete input: the check fails and the "free" registration
fails, so the flag stays false. -/
theorem enableRepositories_flag_witness :
    (enableRepositories worldFreeFails (DriverManager.ofDevices [] false)).rpmFusionEnabled
      = false :=
  (enableRepositories_flag worldFreeFails (DriverManager.ofDevices [] false) rfl).2.1
    (by decide) (Or.inl (by decide))

/-! ## C4: `isPrimary` -/

theorem detectCurrentDriver_devices (w : World) (pciId : String) (dm : DriverManager) :
    (detectCurrentDriver w pciId dm).2.detectedDevices = dm.detectedDevices := by
  unfold detectCurrentDriver
  simp only [system, DriverManager.emit]
  split_ifs <;> rfl

theorem detectLine_devices (w : World) (dm : DriverManager) (line : List Char) :
    (detectLine w dm line).detectedDevices = dm.detectedDevices ∨
    ∃ d, (detectLine w dm line).detectedDevices = dm.detectedDevices ++ [d] ∧
      d.isPrimary = dm.detectedDevices.isEmpty := by
  unfold detectLine
  cases regex_search deviceRegex line with
  | none => exact Or.inl rfl
  | some m =>
      right
      apply Exists.intro
      constructor
      · simp only [logMessage, DriverManager.emit, detectCurrentDriver_devices]
        rfl
      · rfl

theorem detectFold_isPrimary (w : World) (before : List GraphicsDevice)
    (lines : List (List Char)) (dm : DriverManager) (app : List GraphicsDevice)
    (hdm : dm.detectedDevices = before ++ app) (hgood : PrimaryFlags before app) :
    ∃ app', (lines.foldl (detectLine w) dm).detectedDevices = before ++ app' ∧
      PrimaryFlags before app' := by
  induction lines generalizing dm app with
  | nil => exact ⟨app, hdm, hgood⟩
  | cons line lines ih =>
      rw [List.foldl_cons]
      rcases detectLine_devices w dm line with h | ⟨d, h, hd⟩
      · exact ih _ app (h.trans hdm) hgood
      · refine ih _ (app ++ [d]) (by rw [h, hdm, List.append_assoc]) ?_
        intro i x hx
        by_cases hi : i < app.length
        · rw [List.getElem?_append_left hi] at hx
          exact hgood i x hx
        · have hi' : app.length ≤ i := Nat.le_of_not_lt hi
          rw [List.getElem?_append_right hi'] at hx
          have hidx : i - app.length = 0 := by
            by_contra hne
            have hpos : 1 ≤ i - app.length := Nat.one_le_iff_ne_zero.2 hne
            rw [List.getElem?_eq_none (by simpa using hpos)] at hx
            cases hx
          rw [hidx] at hx
          simp only [List.getElem?_cons_zero, Option.some.injEq] at hx
          subst hx
          rw [hd, hdm]
          have hia : i = app.length := by omega
          subst hia
          cases before <;> cases app <;> simp

/-- C4, amended. In every call of `detectGraphicsDevices` the devices of the
manager are kept and new ones are appended behind them; the first device
appended has `isPrimary = true` exactly when the manager held no device before
the call (as on the freshly constructed manager of every program run), and
every later device appended in the call has `isPrimary = false`. -/
theorem detectGraphicsDevices_isPrimary (w : World) (dm : DriverManager) :
    ∃ appended,
      (detectGraphicsDevices w dm).2.detectedDevices = dm.detectedDevices ++ appended ∧
      ∀ i d, appended[i]? = some d →
        d.isPrimary = (dm.detectedDevices.isEmpty && decide (i = 0)) := by
  unfold detectGraphicsDevices
  exact detectFold_isPrimary w dm.detectedDevices _ _ [] (by simp [executeCommand,
    logMessage, DriverManager.emit]) (by intro i d h; simp at h)

/-- C4, amended, at a concrete input: a fresh manager and one VGA line; the
device appended is primary. -/
theorem detectGraphicsDevices_isPrimary_witness :
    ((detectGraphicsDevices worldOneVga (DriverManager.ofDevices [] false)).2.detectedDevices.map
      GraphicsDevice.isPrimary) = [true] := by
  obtain ⟨appended, happ, hflags⟩ :=
    detectGraphicsDevices_isPrimary worldOneVga (DriverManager.ofDevices [] false)
  have hlen : (detectGraphicsDevices worldOneVga
      (DriverManager.ofDevices [] false)).2.detectedDevices.length = 1 := by decide
  rw [happ] at hlen ⊢
  match appended, hlen, hflags with
  | [d], _, hflags =>
      have := hflags 0 d rfl
      simpa [DriverManager.ofDevices] using this

/-- C4 as stated fails: when `detectGraphicsDevices` is called a second time on
the same manager (the method is public), the manager already holds the device
of the first call, and the first (and only) device appended by the second call
has `isPrimary = false`. -/
theorem detectGraphicsDevices_isPrimary_counterexample :
    (DriverManager.construct worldOneVga []).toOption.map
        (fun dm => (detectGraphicsDevices worldOneVga dm).2.detectedDevices) =
      some
        [{ pciId := "10de:1c82", vendor := "NVIDIA", model := "", currentDriver := "nouveau",
           isPrimary := true }] ∧
    (DriverManager.construct worldOneVga []).toOption.map
        (fun dm => (detectGraphicsDevices worldOneVga
          (detectGraphicsDevices worldOneVga dm).2).2.detectedDevices) =
      some
        [{ pciId := "10de:1c82", vendor := "NVIDIA", model := "", currentDriver := "nouveau",
           isPrimary := true },
         { pciId := "10de:1c82", vendor := "NVIDIA", model := "", currentDriver := "nouveau",
           isPrimary := false }] := by
  decide

/-! ## C5: the current-driver probe -/

/-- C5. Whenever the module checks answer according to a module state `loaded`
(`lsmod | grep -q m` exits with 0 exactly when `loaded m`), `detectCurrentDriver`
returns what the reference `probeDriver` gives for the vendor id, the first
four characters of the PCI id: nouveau before nvidia for 10de, amdgpu before
radeon for 1002, always intel for 8086, unknown otherwise. -/
theorem detectCurrentDriver_refines (w : World) (loaded : String → Bool)
    (pciId : String) (dm : DriverManager)
    (hw : ∀ h m, w.systemStatus h ("lsmod | grep -q " ++ m) = 0 ↔ loaded m = true) :
    (detectCurrentDriver w pciId dm).1 = probeDriver (substr0 pciId 4) loaded := by
  have e1 : "lsmod | grep -q nouveau" = "lsmod | grep -q " ++ "nouveau" := by decide
  have e2 : "lsmod | grep -q nvidia" = "lsmod | grep -q " ++ "nvidia" := by decide
  have e3 : "lsmod | grep -q amdgpu" = "lsmod | grep -q " ++ "amdgpu" := by decide
  have e4 : "lsmod | grep -q radeon" = "lsmod | grep -q " ++ "radeon" := by decide
  unfold detectCurrentDriver probeDriver
  simp only [system, DriverManager.emit]
  rw [e1, e2, e3, e4]
  simp only [hw]
  split_ifs <;> rfl

/-- C5, at a concrete input: with both `nouveau` and `nvidia` loaded, an NVIDIA
PCI id is reported as nouveau. -/
theorem detectCurrentDriver_refines_witness :
    (detectCurrentDriver worldBothNvidiaModules "10de:1c82"
        (DriverManager.ofDevices [] false)).1 = "nouveau" :=
  detectCurrentDriver_refines worldBothNvidiaModules
    (fun m => decide (m = "nouveau" ∨ m = "nvidia")) "10de:1c82"
    (DriverManager.ofDevices [] false)
    (by
      intro h m
      have a1 : "lsmod | grep -q nouveau" = "lsmod | grep -q " ++ "nouveau" := by decide
      have a2 : "lsmod | grep -q nvidia" = "lsmod | grep -q " ++ "nvidia" := by decide
      have inj : ∀ x y : String, "lsmod | grep -q " ++ x = "lsmod | grep -q " ++ y ↔ x = y := by
        intro x y
        constructor
        · intro hxy
          have hd := congrArg String.data hxy
          simp only [String.data_append] at hd
          exact String.ext (List.append_cancel_left hd)
        · intro hxy; rw [hxy]
      simp only [worldBothNvidiaModules, World.fixed, a1, a2, inj, decide_eq_true_eq]
      by_cases h1 : m = "nouveau"
      · simp [h1]
      · by_cases h2 : m = "nvidia"
        · simp [h2]
        · simp [h1, h2])

/-! ## C6: package operations of the rollback -/

theorem restoreStep_eq (w : World) (dm : DriverManager) (d : GraphicsDevice) :
    restoreStep w dm d = { dm with history := dm.history ++ rollbackOps d } := by
  unfold restoreStep rollbackOps
  split_ifs <;> simp [executeCommand, DriverManager.emit]

theorem restoreFold_eq (w : World) (ds : List GraphicsDevice) (dm : DriverManager) :
    ds.foldl (restoreStep w) dm =
      { dm with history := dm.history ++ (ds.map rollbackOps).flatten } := by
  induction ds generalizing dm with
  | nil => simp
  | cons d ds ih =>
      rw [List.foldl_cons, ih, restoreStep_eq]
      simp [List.append_assoc]

/-- C6. The history `restoreDefaultDrivers` adds is: its entry log line, the
copy of the backed-up configuration file when both files exist, then, device by
device in list order, the reference operations `rollbackOps` (for NVIDIA one
remove followed by one install of nouveau, for AMD one reinstall, for any other
vendor nothing), then its closing log line. With only Intel devices no package
operation is issued at all. The call returns true and leaves the device list
and the flag as they were. -/
theorem restoreDefaultDrivers_ops (w : World) (dm : DriverManager) :
    let h0 := dm.history ++ [Event.log "Przywracanie domyślnych sterowników..."]
    let restoreConfig : List Event :=
      if w.fsExists h0 "/var/lib/driver-installer/backup/xorg.conf" = true ∧
          w.fsExists h0 "/etc/X11/xorg.conf" = true then
        [Event.popen "cp /var/lib/driver-installer/backup/xorg.conf /etc/X11/xorg.conf"]
      else []
    restoreDefaultDrivers w dm =
        (true, { dm with history := h0 ++ restoreConfig ++
          (dm.detectedDevices.map rollbackOps).flatten ++
          [Event.log "Przywrócono domyślne sterowniki"] }) ∧
    ((∀ d ∈ dm.detectedDevices, d.vendor = "Intel") →
      (restoreDefaultDrivers w dm).2.history =
        h0 ++ restoreConfig ++ [Event.log "Przywrócono domyślne sterowniki"]) := by
  intro h0 restoreConfig
  have e1 : backupDir ++ "/xorg.conf" = "/var/lib/driver-installer/backup/xorg.conf" := by
    decide
  have e2 : "cp " ++ backupDir ++ "/xorg.conf /etc/X11/xorg.conf" =
      "cp /var/lib/driver-installer/backup/xorg.conf /etc/X11/xorg.conf" := by decide
  have main : restoreDefaultDrivers w dm =
      (true, { dm with history := h0 ++ restoreConfig ++
        (dm.detectedDevices.map rollbackOps).flatten ++
        [Event.log "Przywrócono domyślne sterowniki"] }) := by
    unfold restoreDefaultDrivers
    simp only [restoreFold_eq, e1, e2]
    by_cases hc : w.fsExists h0 "/var/lib/driver-installer/backup/xorg.conf" = true ∧
        w.fsExists h0 "/etc/X11/xorg.conf" = true
    · have hc1 := hc.1
      have hc2 := hc.2
      simp only [h0] at hc1 hc2
      simp [restoreConfig, h0, logMessage, DriverManager.emit, executeCommand, hc1, hc2]
    · have hc' : ¬ (w.fsExists (dm.history ++ [Event.log "Przywracanie domyślnych sterowników..."])
            "/var/lib/driver-installer/backup/xorg.conf" = true ∧
          w.fsExists (dm.history ++ [Event.log "Przywracanie domyślnych sterowników..."])
            "/etc/X11/xorg.conf" = true) := hc
      simp only [restoreConfig, h0, logMessage, DriverManager.emit, executeCommand,
        Bool.and_eq_true, hc', if_false]
      simp
  refine ⟨main, ?_⟩
  intro hall
  rw [main]
  have hnil : (dm.detectedDevices.map rollbackOps).flatten = [] := by
    rw [List.flatten_eq_nil_iff]
    intro l hl
    obtain ⟨d, hd, rfl⟩ := List.mem_map.1 hl
    have hI := hall d hd
    have n1 : ¬ ("Intel" = "NVIDIA") := by decide
    have n2 : ¬ ("Intel" = "AMD") := by decide
    simp [rollbackOps, hI, n1, n2]
  simp [hnil]

/-- C6, at a concrete input: an Intel-only device list. -/
theorem restoreDefaultDrivers_ops_witness :
    (restoreDefaultDrivers worldOneVga (DriverManager.ofDevices [sampleIntel] false)).2.history =
      [Event.log "Przywracanie domyślnych sterowników...",
       Event.log "Przywrócono domyślne sterowniki"] :=
  (restoreDefaultDrivers_ops worldOneVga (DriverManager.ofDevices [sampleIntel] false)).2
    (by decide)

/-! ## C9: result of `installNvidiaDrivers` -/

/-- C9. `installNvidiaDrivers` returns true exactly when the repository flag is
true, the package install exited with 0 and, after the wait, the module check
exited with 0; a successful package step followed by a failed module check gives
false. Among the events the call adds, `nvidia-xconfig` occurs exactly when the
call returns true, and the module check occurs exactly when the flag is true and
the package install exited with 0 (never after a failed package step). -/
theorem installNvidiaDrivers_result (w : World) (device : GraphicsDevice)
    (dm : DriverManager) :
    let h1 := dm.history ++ [Event.log "Instalacja sterowników NVIDIA..."]
    let pkg := w.systemStatus h1
      "dnf install -y akmod-nvidia xorg-x11-drv-nvidia xorg-x11-drv-nvidia-cuda"
    let h2 := h1 ++
      [Event.system "dnf install -y akmod-nvidia xorg-x11-drv-nvidia xorg-x11-drv-nvidia-cuda",
       Event.log "Oczekiwanie na zbudowanie modułu jądra NVIDIA...", Event.sleep 60]
    let modu := w.systemStatus h2 "lsmod | grep -q nvidia"
    let r := installNvidiaDrivers w device dm
    ∃ added, r.2.history = dm.history ++ added ∧
      (r.1 = true ↔ dm.rpmFusionEnabled = true ∧ pkg = 0 ∧ modu = 0) ∧
      (dm.rpmFusionEnabled = true → pkg = 0 → modu ≠ 0 → r.1 = false) ∧
      (Event.system "nvidia-xconfig" ∈ added ↔ r.1 = true) ∧
      (Event.system "lsmod | grep -q nvidia" ∈ added ↔
        dm.rpmFusionEnabled = true ∧ pkg = 0) := by
  intro h1 pkg h2 modu r
  have hpkg : w.systemStatus (dm.history ++ [Event.log "Instalacja sterowników NVIDIA..."])
      "dnf install -y akmod-nvidia xorg-x11-drv-nvidia xorg-x11-drv-nvidia-cuda" = pkg := rfl
  have hmodu : w.systemStatus (dm.history ++ [Event.log "Instalacja sterowników NVIDIA...",
      Event.system "dnf install -y akmod-nvidia xorg-x11-drv-nvidia xorg-x11-drv-nvidia-cuda",
      Event.log "Oczekiwanie na zbudowanie modułu jądra NVIDIA...", Event.sleep 60])
      "lsmod | grep -q nvidia" = modu := by
    simp [modu, h2, h1]
  cases hflag : dm.rpmFusionEnabled
  · refine ⟨[Event.log "Instalacja sterowników NVIDIA...",
      Event.log ("BŁĄD: Repozytoria RPM Fusion nie są włączone. " ++
        "Nie można zainstalować sterowników NVIDIA.")], ?_⟩
    simp [r, installNvidiaDrivers, logMessage, DriverManager.emit, hflag]
  · by_cases hp : pkg = 0
    · by_cases hm : modu = 0
      · refine ⟨[Event.log "Instalacja sterowników NVIDIA...",
          Event.system "dnf install -y akmod-nvidia xorg-x11-drv-nvidia xorg-x11-drv-nvidia-cuda",
          Event.log "Oczekiwanie na zbudowanie modułu jądra NVIDIA...", Event.sleep 60,
          Event.system "lsmod | grep -q nvidia", Event.system "nvidia-xconfig",
          Event.log "Pomyślnie zainstalowano sterowniki NVIDIA"], ?_⟩
        simp [r, installNvidiaDrivers, logMessage, DriverManager.emit, system, hflag, hpkg,
          hmodu, hp, hm]
      · refine ⟨[Event.log "Instalacja sterowników NVIDIA...",
          Event.system "dnf install -y akmod-nvidia xorg-x11-drv-nvidia xorg-x11-drv-nvidia-cuda",
          Event.log "Oczekiwanie na zbudowanie modułu jądra NVIDIA...", Event.sleep 60,
          Event.system "lsmod | grep -q nvidia",
          Event.log "OSTRZEŻENIE: Moduł NVIDIA nie został załadowany"], ?_⟩
        simp [r, installNvidiaDrivers, logMessage, DriverManager.emit, system, hflag, hpkg,
          hmodu, hp, hm]
    · refine ⟨[Event.log "Instalacja sterowników NVIDIA...",
        Event.system "dnf install -y akmod-nvidia xorg-x11-drv-nvidia xorg-x11-drv-nvidia-cuda",
        Event.log "BŁĄD: Nie udało się zainstalować sterowników NVIDIA"], ?_⟩
      simp [r, installNvidiaDrivers, logMessage, DriverManager.emit, system, hflag, hpkg, hp]

/-- C9, at a concrete input: the package install succeeds and the module is
not loaded after the wait, so the routine returns false. -/
theorem installNvidiaDrivers_result_witness :
    (installNvidiaDrivers worldModuleMissing sampleNvidia
      (DriverManager.ofDevices [sampleNvidia] true)).1 = false := by
  obtain ⟨_, _, _, h, _⟩ := installNvidiaDrivers_result worldModuleMissing sampleNvidia
    (DriverManager.ofDevices [sampleNvidia] true)
  exact h rfl rfl (by decide)

/-! ## Helper lemmas: who enters `restoreDefaultDrivers` -/

theorem rollbackCount_nil : rollbackCount [] = 0 := rfl

theorem rollbackCount_cons (e : Event) (l : List Event) :
    rollbackCount (e :: l) = rollbackCount l + if e = rollbackEntry then 1 else 0 := by
  unfold rollbackCount
  rw [List.count_cons]
  by_cases he : e = rollbackEntry
  · simp [he]
  · simp [he]

theorem rollbackCount_append (h l : List Event) :
    rollbackCount (h ++ l) = rollbackCount h + rollbackCount l := by
  unfold rollbackCount
  exact List.count_append _ _ _

theorem ne_entry_text (s : String) (h : s.data.head? ≠ some 'P') :
    (s = "Przywracanie domyślnych sterowników...") = False := by
  apply eq_false
  intro hs
  apply h
  rw [hs]
  decide

theorem logMessage_count (dm : DriverManager) (m : String) :
    rollbackCount (logMessage dm m).history =
      rollbackCount dm.history +
        if m = "Przywracanie domyślnych sterowników..." then 1 else 0 := by
  simp [logMessage, DriverManager.emit, rollbackCount_append, rollbackCount_cons,
    rollbackCount_nil, rollbackEntry]

theorem detectCurrentDriver_quiet (w : World) (pciId : String) (dm : DriverManager) :
    rollbackCount (detectCurrentDriver w pciId dm).2.history = rollbackCount dm.history := by
  unfold detectCurrentDriver
  simp only [system, DriverManager.emit]
  split_ifs <;> simp [rollbackCount_append, rollbackCount_cons, rollbackCount_nil, rollbackEntry]

theorem detectLine_quiet (w : World) (dm : DriverManager) (line : List Char) :
    rollbackCount (detectLine w dm line).history = rollbackCount dm.history := by
  unfold detectLine
  cases regex_search deviceRegex line with
  | none => rfl
  | some m =>
      simp [logMessage, DriverManager.emit, rollbackCount_append, rollbackCount_cons, rollbackCount_nil, rollbackEntry, ne_entry_text,
        String.data_append, detectCurrentDriver_quiet]

theorem detectGraphicsDevices_quiet (w : World) (dm : DriverManager) :
    rollbackCount (detectGraphicsDevices w dm).2.history = rollbackCount dm.history := by
  unfold detectGraphicsDevices
  have h := foldl_keeps
    (fun s : DriverManager => rollbackCount s.history = rollbackCount dm.history)
    (detectLine w) (fun s a hs => (detectLine_quiet w s a).trans hs)
    (getlines [] (executeCommand w "lspci -nn | grep -E 'VGA|3D|Display'"
      (logMessage dm "Wykrywanie urządzeń graficznych...")).1.data)
    (executeCommand w "lspci -nn | grep -E 'VGA|3D|Display'"
      (logMessage dm "Wykrywanie urządzeń graficznych...")).2
    (by simp [executeCommand, logMessage, DriverManager.emit, rollbackCount_append, rollbackCount_cons, rollbackCount_nil, rollbackEntry])
  exact h

theorem createBackup_quiet (w : World) (dm : DriverManager) :
    rollbackCount (createBackup w dm).history = rollbackCount dm.history := by
  unfold createBackup
  simp only [executeCommand, logMessage, DriverManager.emit]
  split_ifs <;> simp [rollbackCount_append, rollbackCount_cons, rollbackCount_nil, rollbackEntry]

theorem enableRepositories_quiet (w : World) (dm : DriverManager) :
    rollbackCount (enableRepositories w dm).history = rollbackCount dm.history := by
  unfold enableRepositories
  simp only [system, logMessage, DriverManager.emit]
  split_ifs <;> simp [rollbackCount_append, rollbackCount_cons, rollbackCount_nil, rollbackEntry]

theorem construct_quiet (w : World) (h : List Event) (dm : DriverManager)
    (hdm : DriverManager.construct w h = Except.ok dm) :
    rollbackCount dm.history = rollbackCount h := by
  obtain ⟨_, _, added, hadd, hall⟩ := construct_ok w h dm hdm
  rw [hadd, rollbackCount_append]
  have hzero : rollbackCount added = 0 := by
    unfold rollbackCount
    rw [List.count_eq_zero]
    intro hmem
    rcases hall _ hmem with e | e <;> simp [rollbackEntry] at e
  omega

theorem initManager_quiet (w : World) (dm : DriverManager) :
    rollbackCount (initManager w dm).2.history = rollbackCount dm.history := by
  simp only [initManager]
  by_cases hroot : w.euid ≠ 0
  · simp [hroot, logMessage_count]
  · cases hdet : (detectGraphicsDevices w
        (logMessage dm "Rozpoczęcie procesu automatycznej instalacji sterowników")).1 <;>
      simp [hroot, hdet, logMessage_count, detectGraphicsDevices_quiet, createBackup_quiet,
        enableRepositories_quiet]

theorem installNvidiaDrivers_quiet (w : World) (d : GraphicsDevice) (dm : DriverManager) :
    rollbackCount (installNvidiaDrivers w d dm).2.history = rollbackCount dm.history := by
  unfold installNvidiaDrivers
  simp only [system, logMessage, DriverManager.emit]
  split_ifs <;> simp [rollbackCount_append, rollbackCount_cons, rollbackCount_nil, rollbackEntry]

theorem installAmdDrivers_quiet (w : World) (d : GraphicsDevice) (dm : DriverManager) :
    rollbackCount (installAmdDrivers w d dm).2.history = rollbackCount dm.history := by
  unfold installAmdDrivers writeConfig
  simp only [system, logMessage, DriverManager.emit]
  split_ifs <;> simp [rollbackCount_append, rollbackCount_cons, rollbackCount_nil, rollbackEntry]

theorem installIntelDrivers_quiet (w : World) (d : GraphicsDevice) (dm : DriverManager) :
    rollbackCount (installIntelDrivers w d dm).2.history = rollbackCount dm.history := by
  unfold installIntelDrivers writeConfig
  simp only [system, logMessage, DriverManager.emit]
  split_ifs <;> simp [rollbackCount_append, rollbackCount_cons, rollbackCount_nil, rollbackEntry]

theorem vendorRoutine_quiet (w : World) (d : GraphicsDevice)
    (routine : DriverManager → Bool × DriverManager) (h : vendorRoutine w d = some routine)
    (dm : DriverManager) :
    rollbackCount (routine dm).2.history = rollbackCount dm.history := by
  unfold vendorRoutine at h
  split_ifs at h <;> simp only [Option.some.injEq] at h <;> subst h
  · exact installNvidiaDrivers_quiet w d dm
  · exact installAmdDrivers_quiet w d dm
  · exact installIntelDrivers_quiet w d dm

theorem installStep_quiet (w : World) (acc : InstallLoop) (d : GraphicsDevice) :
    rollbackCount (installStep w acc d).dm.history = rollbackCount acc.dm.history := by
  simp only [installStep]
  cases hr : vendorRoutine w d with
  | none => simp [logMessage_count, ne_entry_text, String.data_append]
  | some routine =>
      have hq := vendorRoutine_quiet w d routine hr
      cases hb : (routine (logMessage acc.dm
        ("Instalacja sterowników dla: " ++ d.vendor ++ " " ++ d.model))).1 <;>
        simp [hb, hq, logMessage_count, ne_entry_text, String.data_append]

theorem installDrivers_quiet (w : World) (dm : DriverManager) :
    rollbackCount (installDrivers w dm).2.history = rollbackCount dm.history := by
  have h : rollbackCount (installLoop w dm).dm.history = rollbackCount dm.history := by
    unfold installLoop
    exact foldl_keeps
      (fun s : InstallLoop => rollbackCount s.dm.history = rollbackCount dm.history)
      (installStep w) (fun s a hs => (installStep_quiet w s a).trans hs) _ _
      (by simp [logMessage, DriverManager.emit, rollbackCount_append, rollbackCount_cons, rollbackCount_nil, rollbackEntry])
  simp only [installDrivers]
  split_ifs <;> simp [logMessage, DriverManager.emit, rollbackCount_append, rollbackCount_cons, rollbackCount_nil, rollbackEntry, h]

theorem testDrivers_quiet (w : World) (dm : DriverManager) :
    rollbackCount (testDrivers w dm).2.history = rollbackCount dm.history := by
  unfold testDrivers
  simp only [system, logMessage, DriverManager.emit]
  split_ifs <;> simp_all [rollbackCount_append, rollbackCount_cons, rollbackCount_nil, rollbackEntry]

theorem getline_quiet (w : World) (response : String) (dm : DriverManager) :
    rollbackCount (getline w response dm).2.history = rollbackCount dm.history := by
  simp [getline, DriverManager.emit, rollbackCount_append, rollbackCount_cons, rollbackCount_nil, rollbackEntry]

theorem cout_quiet (dm : DriverManager) (text : String) :
    rollbackCount (cout dm text).history = rollbackCount dm.history := by
  simp [cout, DriverManager.emit, rollbackCount_append, rollbackCount_cons, rollbackCount_nil, rollbackEntry]

theorem printDevices_quiet (ds : List GraphicsDevice) (dm : DriverManager) :
    rollbackCount (ds.foldl printDevice dm).history = rollbackCount dm.history :=
  foldl_keeps (fun s : DriverManager => rollbackCount s.history = rollbackCount dm.history)
    printDevice (fun s a hs => by
      show rollbackCount (printDevice s a).history = rollbackCount dm.history
      simp only [printDevice, cout_quiet]; exact hs) ds dm rfl

theorem restoreDefaultDrivers_enters_once (w : World) (dm : DriverManager) :
    rollbackCount (restoreDefaultDrivers w dm).2.history = rollbackCount dm.history + 1 := by
  have hstep : ∀ (s : DriverManager) (d : GraphicsDevice),
      rollbackCount (restoreStep w s d).history = rollbackCount s.history := by
    intro s d
    unfold restoreStep
    simp only [executeCommand, DriverManager.emit]
    split_ifs <;> simp [rollbackCount_append, rollbackCount_cons, rollbackCount_nil, rollbackEntry]
  have hfold : ∀ (ds : List GraphicsDevice) (s : DriverManager),
      rollbackCount (ds.foldl (restoreStep w) s).history = rollbackCount s.history := by
    intro ds s
    exact foldl_keeps
      (fun t : DriverManager => rollbackCount t.history = rollbackCount s.history)
      (restoreStep w) (fun t a ht => (hstep t a).trans ht) ds s rfl
  simp only [restoreDefaultDrivers]
  rw [logMessage_count, hfold]
  by_cases hc : (w.fsExists (logMessage dm "Przywracanie domyślnych sterowników...").history
      (backupDir ++ "/xorg.conf") &&
      w.fsExists (logMessage dm "Przywracanie domyślnych sterowników...").history
        "/etc/X11/xorg.conf") = true
  · rw [if_pos hc]
    simp [executeCommand, DriverManager.emit, rollbackCount_append, rollbackCount_cons,
      rollbackCount_nil, rollbackEntry, logMessage_count]
  · rw [if_neg hc]
    simp [logMessage_count]

theorem restoreDefaultDrivers_no_read (w : World) (dm : DriverManager) :
    ∃ added, (restoreDefaultDrivers w dm).2.history = dm.history ++ added ∧
      Event.readLine ∉ added := by
  have hops : Event.readLine ∉ (dm.detectedDevices.map rollbackOps).flatten := by
    intro hmem
    obtain ⟨l, hl, he⟩ := List.mem_flatten.1 hmem
    obtain ⟨d, _, rfl⟩ := List.mem_map.1 hl
    unfold rollbackOps at he
    split_ifs at he <;> simp at he
  simp only [restoreDefaultDrivers, restoreFold_eq]
  split_ifs
  · refine ⟨[Event.log "Przywracanie domyślnych sterowników...",
      Event.popen ("cp " ++ backupDir ++ "/xorg.conf /etc/X11/xorg.conf")] ++
      (dm.detectedDevices.map rollbackOps).flatten ++
      [Event.log "Przywrócono domyślne sterowniki"], ?_, ?_⟩
    · simp [logMessage, executeCommand, DriverManager.emit]
    · simp [hops]
  · refine ⟨[Event.log "Przywracanie domyślnych sterowników..."] ++
      (dm.detectedDevices.map rollbackOps).flatten ++
      [Event.log "Przywrócono domyślne sterowniki"], ?_, ?_⟩
    · simp [logMessage, DriverManager.emit]
    · simp [hops]

/-! ## Rollback and exit status of a run, in general -/

/-- Every call of `restoreDefaultDrivers` adds exactly one entry line to the
history and nothing else in the program adds one, so `rollbackCount` counts its
invocations. In an interactive run the count grows by one exactly when
initialisation succeeded, `response` held t or T after the install prompt, and
either `installDrivers` returned false and `response` held t or T after the
read at the rollback prompt (the line read there, or the earlier content when
nothing could be read), or `installDrivers` returned true and `testDrivers`
returned false; in an automatic run exactly when initialisation succeeded and
either `installDrivers` returned false or it returned true and `testDrivers`
returned false. In every other run the count does not change. After a failed
verification nothing is read from standard input. -/
theorem rollbackCount_of_run (w : World) :
    (∀ dm : DriverManager,
      rollbackCount (restoreDefaultDrivers w dm).2.history = rollbackCount dm.history + 1) ∧
    (∀ dm : DriverManager,
      rollbackCount (run w dm).2.history = rollbackCount dm.history +
        if (runInit w dm).1 = true ∧
            ((runConfirm w dm).1 = "t" ∨ (runConfirm w dm).1 = "T") ∧
            (((runInstall w dm).1 = false ∧
                ((runRollbackAnswer w dm).1 = "t" ∨ (runRollbackAnswer w dm).1 = "T")) ∨
              ((runInstall w dm).1 = true ∧ (runTest w dm).1 = false))
        then 1 else 0) ∧
    (∀ dm : DriverManager,
      rollbackCount (runAutomaticBody w dm).2.history = rollbackCount dm.history +
        if (autoInit w dm).1 = true ∧
            ((autoInstall w dm).1 = false ∨
              ((autoInstall w dm).1 = true ∧ (autoTest w dm).1 = false))
        then 1 else 0) ∧
    (∀ dm : DriverManager, (runInit w dm).1 = true →
      ((runConfirm w dm).1 = "t" ∨ (runConfirm w dm).1 = "T") →
      (runInstall w dm).1 = true → (runTest w dm).1 = false →
      ∃ added, (run w dm).2.history = (runTest w dm).2.history ++ added ∧
        Event.readLine ∉ added ∧ rollbackCount added = 1) := by
  have hInit : ∀ dm, rollbackCount (runInit w dm).2.history = rollbackCount dm.history := by
    intro dm
    simp only [runInit, initManager_quiet, cout_quiet]
  have hConfirm : ∀ dm,
      rollbackCount (runConfirm w dm).2.history = rollbackCount dm.history := by
    intro dm
    simp only [runConfirm, getline_quiet, cout_quiet, printDevices_quiet, hInit]
  have hInstall : ∀ dm,
      rollbackCount (runInstall w dm).2.history = rollbackCount dm.history := by
    intro dm
    simp only [runInstall, installDrivers_quiet, hConfirm]
  have hAnswer : ∀ dm,
      rollbackCount (runRollbackAnswer w dm).2.history = rollbackCount dm.history := by
    intro dm
    simp only [runRollbackAnswer, getline_quiet, cout_quiet, hInstall]
  have hTest : ∀ dm, rollbackCount (runTest w dm).2.history = rollbackCount dm.history := by
    intro dm
    simp only [runTest, testDrivers_quiet, hInstall]
  have hAInit : ∀ dm, rollbackCount (autoInit w dm).2.history = rollbackCount dm.history := by
    intro dm
    simp only [autoInit, initManager_quiet]
  have hAInstall : ∀ dm,
      rollbackCount (autoInstall w dm).2.history = rollbackCount dm.history := by
    intro dm
    simp only [autoInstall, installDrivers_quiet, hAInit]
  have hATest : ∀ dm, rollbackCount (autoTest w dm).2.history = rollbackCount dm.history := by
    intro dm
    simp only [autoTest, testDrivers_quiet, hAInstall]
  refine ⟨restoreDefaultDrivers_enters_once w, ?_, ?_, ?_⟩
  · intro dm
    simp only [run]
    cases hi : (runInit w dm).1
    · simp [DriverManager.emit, hInit, rollbackCount_append, rollbackCount_cons,
        rollbackCount_nil, rollbackEntry]
    · by_cases hc : (runConfirm w dm).1 = "t" ∨ (runConfirm w dm).1 = "T"
      · have hc' : ¬ ((runConfirm w dm).1 ≠ "t" ∧ (runConfirm w dm).1 ≠ "T") := by
          rintro ⟨a, b⟩
          rcases hc with h | h
          · exact a h
          · exact b h
        cases hinst : (runInstall w dm).1
        · by_cases ha : (runRollbackAnswer w dm).1 = "t" ∨ (runRollbackAnswer w dm).1 = "T"
          · simp [hc, hc', ha, cout_quiet, restoreDefaultDrivers_enters_once, hAnswer]
          · simp [hc, hc', ha, hAnswer]
        · cases ht : (runTest w dm).1
          · simp [hc, hc', cout_quiet, restoreDefaultDrivers_enters_once, hTest]
          · simp only [hc', hc, Bool.not_true, if_false, Bool.false_eq_true]
            split_ifs <;>
              simp_all [system, DriverManager.emit, getline_quiet, cout_quiet,
                rollbackCount_append, rollbackCount_cons, rollbackCount_nil, rollbackEntry]
      · have hc' : (runConfirm w dm).1 ≠ "t" ∧ (runConfirm w dm).1 ≠ "T" :=
          ⟨fun h => hc (Or.inl h), fun h => hc (Or.inr h)⟩
        simp [hc, hc', cout_quiet, hConfirm]
  · intro dm
    simp only [runAutomaticBody]
    cases hi : (autoInit w dm).1
    · simp [hAInit]
    · cases hinst : (autoInstall w dm).1
      · simp [restoreDefaultDrivers_enters_once, hAInstall]
      · cases ht : (autoTest w dm).1
        · simp [restoreDefaultDrivers_enters_once, hATest]
        · simp [hATest]
  · intro dm hi hc hinst ht
    have hc' : ¬ ((runConfirm w dm).1 ≠ "t" ∧ (runConfirm w dm).1 ≠ "T") := by
      rintro ⟨a, b⟩
      rcases hc with h | h
      · exact a h
      · exact b h
    obtain ⟨added, hadd, hno⟩ := restoreDefaultDrivers_no_read w
      (cout (cout (runTest w dm).2 "\nWystąpiły problemy z nowymi sterownikami.\n")
        "Przywracanie domyślnych sterowników...\n")
    have hcnt := restoreDefaultDrivers_enters_once w
      (cout (cout (runTest w dm).2 "\nWystąpiły problemy z nowymi sterownikami.\n")
        "Przywracanie domyślnych sterowników...\n")
    refine ⟨[Event.print "\nWystąpiły problemy z nowymi sterownikami.\n",
      Event.print "Przywracanie domyślnych sterowników...\n"] ++ added, ?_, ?_, ?_⟩
    · simp only [run, hi, hc', hinst, ht, Bool.not_true, Bool.not_false, if_true, if_false,
        Bool.false_eq_true]
      rw [hadd]
      simp [cout, DriverManager.emit]
    · simp [hno]
    · rw [hadd] at hcnt
      simp only [cout, DriverManager.emit, rollbackCount_append, rollbackCount_cons,
        rollbackCount_nil] at hcnt
      simp only [rollbackCount_append, rollbackCount_cons, rollbackCount_nil]
      simp [rollbackEntry] at hcnt ⊢
      omega

/-- On a constructed manager the interactive run returns 0 exactly when
initialisation succeeded and either `response` held neither t nor T after the
install prompt or both `installDrivers` and `testDrivers` returned true, and
returns 1 in every other case. The automatic run, after its constructor,
returns 0 exactly when initialisation, `installDrivers` and `testDrivers` all
succeeded and 1 otherwise. When the constructor completes, `main` ends with the
status of the automatic run for `--auto` and of the interactive run when its
first argument is neither `--auto` nor `--install-service`; when the
constructor throws in either mode, `main` ends in `std::terminate`. -/
theorem status_of_run (w : World) :
    (∀ dm : DriverManager,
      (run w dm).1 =
        if (runInit w dm).1 = true ∧
            (¬ ((runConfirm w dm).1 = "t" ∨ (runConfirm w dm).1 = "T") ∨
              ((runInstall w dm).1 = true ∧ (runTest w dm).1 = true))
        then 0 else 1) ∧
    (∀ dm : DriverManager,
      (runAutomaticBody w dm).1 =
        if (autoInit w dm).1 = true ∧ (autoInstall w dm).1 = true ∧
            (autoTest w dm).1 = true
        then 0 else 1) ∧
    (∀ (argv : List String) (dm : DriverManager), argv[1]? = some "--auto" →
      DriverManager.construct w [] = Except.ok dm →
      (main w argv).1 = Termination.exited (runAutomaticBody w dm).1) ∧
    (∀ (argv : List String) (dm : DriverManager), argv[1]? ≠ some "--auto" →
      argv[1]? ≠ some "--install-service" →
      DriverManager.construct w [] = Except.ok dm →
      (main w argv).1 = Termination.exited (run w dm).1) ∧
    (∀ (argv : List String) (h : List Event), argv[1]? ≠ some "--install-service" →
      DriverManager.construct w [] = Except.error h →
      main w argv = (Termination.aborted, h)) := by
  refine ⟨?_, ?_, ?_, ?_, ?_⟩
  · intro dm
    simp only [run]
    cases hi : (runInit w dm).1
    · simp
    · by_cases hc : (runConfirm w dm).1 = "t" ∨ (runConfirm w dm).1 = "T"
      · have hc' : ¬ ((runConfirm w dm).1 ≠ "t" ∧ (runConfirm w dm).1 ≠ "T") := by
          rintro ⟨a, b⟩
          rcases hc with h | h
          · exact a h
          · exact b h
        cases hinst : (runInstall w dm).1
        · simp only [hc', hc, Bool.not_false, if_true, if_false, Bool.not_true,
            Bool.false_eq_true]
          split_ifs <;> simp_all
        · cases ht : (runTest w dm).1
          · simp [hc, hc']
          · simp only [hc', hc, Bool.not_true, if_false, Bool.false_eq_true]
            split_ifs <;> simp_all
      · have hc' : (runConfirm w dm).1 ≠ "t" ∧ (runConfirm w dm).1 ≠ "T" :=
          ⟨fun h => hc (Or.inl h), fun h => hc (Or.inr h)⟩
        simp [hc, hc']
  · intro dm
    simp only [runAutomaticBody]
    cases hi : (autoInit w dm).1
    · simp
    · cases hinst : (autoInstall w dm).1
      · simp
      · cases ht : (autoTest w dm).1 <;> simp
  · intro argv dm harg hdm
    have hlen : argv.length > 1 := by
      by_contra hlt
      rw [List.getElem?_eq_none (by omega)] at harg
      cases harg
    unfold main
    rw [if_pos ⟨hlen, harg⟩]
    simp [runAutomatic, hdm]
  · intro argv dm h1 h2 hdm
    unfold main
    rw [if_neg (fun h => h1 h.2), if_neg (fun h => h2 h.2)]
    simp [hdm]
  · intro argv h h2 hdm
    unfold main
    by_cases hauto : argv.length > 1 ∧ argv[1]? = some "--auto"
    · rw [if_pos hauto]
      simp [runAutomatic, hdm]
    · rw [if_neg hauto, if_neg (fun h => h2 h.2)]
      simp [hdm]

/-! ## C7: rollback without an answer -/

set_option maxRecDepth 100000 in
/-- C7, the code at the failing input. Standard input holds `t` with no newline
behind it. The constructor and the initialisation succeed, the read at the
install prompt stores `t`, `installDrivers` returns false (the repositories
could not be enabled). At the rollback prompt `std::getline` reads nothing and
leaves `response` as it was, so `response` still holds the `t` typed at the
install prompt, and `run` calls `restoreDefaultDrivers`: the proprietary
packages are removed and the nouveau package is installed although the rollback
prompt was never answered. -/
theorem run_rollback_on_stale_answer :
    (DriverManager.construct worldStaleAnswer []).toOption = some constructedManager ∧
    (runInit worldStaleAnswer constructedManager).1 = true ∧
    (runConfirm worldStaleAnswer constructedManager).1 = "t" ∧
    (runInstall worldStaleAnswer constructedManager).1 = false ∧
    worldStaleAnswer.stdinLine
      ((runInstall worldStaleAnswer constructedManager).2.history ++
        [Event.print "\nWystąpiły problemy podczas instalacji sterowników.\n",
         Event.print "Czy chcesz przywrócić domyślne sterowniki? (t/n): "]) = none ∧
    (runRollbackAnswer worldStaleAnswer constructedManager).1 = "t" ∧
    (run worldStaleAnswer constructedManager).1 = 1 ∧
    (run worldStaleAnswer constructedManager).2.history =
      (runInstall worldStaleAnswer constructedManager).2.history ++
        [Event.print "\nWystąpiły problemy podczas instalacji sterowników.\n",
         Event.print "Czy chcesz przywrócić domyślne sterowniki? (t/n): ",
         Event.readLine,
         Event.log "Przywracanie domyślnych sterowników...",
         Event.popen "dnf remove -y akmod-nvidia xorg-x11-drv-nvidia*",
         Event.popen "dnf install -y xorg-x11-drv-nouveau",
         Event.log "Przywrócono domyślne sterowniki",
         Event.print "Przywrócono domyślne sterowniki.\n"] ∧
    main worldStaleAnswer ["auto-driver-installer"] =
      (Termination.exited 1, (run worldStaleAnswer constructedManager).2.history) := by
  decide

/-! ## C8: the constructor throws before the root check -/

/-- C8, the code at the failing input. A user who is not root starts the
program while `/var/lib/driver-installer` does not exist. In the constructor
`fs::create_directories` throws, before `initialize()` and its `geteuid` check
are reached; nothing catches the exception, so in interactive and in automatic
mode the process ends in `std::terminate` and returns neither 0 nor 1. When the
directories exist already, the same user gets the root check's error and
status 1. -/
theorem main_aborts_without_root :
    main worldNotRoot ["auto-driver-installer"] =
      (Termination.aborted, [Event.createDirectories "/var/lib/driver-installer"]) ∧
    main worldNotRoot ["auto-driver-installer", "--auto"] =
      (Termination.aborted, [Event.createDirectories "/var/lib/driver-installer"]) ∧
    main worldNotRootDirsPresent ["auto-driver-installer"] =
      (Termination.exited 1,
        [Event.print "===== Automatyczna instalacja sterowników graficznych Fedora =====\n",
         Event.print "Ten program automatycznie wykryje i zainstaluje zalecane sterowniki\n",
         Event.print "dla Twojej karty graficznej. W przypadku niepowodzenia przywróci\n",
         Event.print "domyślne sterowniki.\n",
         Event.print "\n",
         Event.log "Rozpoczęcie procesu automatycznej instalacji sterowników",
         Event.log
           "BŁĄD: Ten program musi być uruchomiony z uprawnieniami administratora (root)",
         Event.printErr "Nie można kontynuować z powodu błędów inicjalizacji.\n"]) ∧
    main worldNotRootDirsPresent ["auto-driver-installer", "--auto"] =
      (Termination.exited 1,
        [Event.log "Rozpoczęcie procesu automatycznej instalacji sterowników",
         Event.log
           "BŁĄD: Ten program musi być uruchomiony z uprawnieniami administratora (root)"]) := by
  decide

/-! ## C10: 3D and Display controllers -/

/-- C10, the code at the failing inputs. The enumeration command keeps lines
containing `VGA`, `3D` or `Display`, but the pattern only accepts
`VGA compatible controller`: on an output whose only line is a 3D controller, or
a Display controller, with a bracketed `vendorid:deviceid` pair, no device is
detected and `detectGraphicsDevices` returns false. -/
theorem detectGraphicsDevices_misses_3D_Display :
    (regex_search deviceRegex line3D.data).isNone = true ∧
    (regex_search deviceRegex lineDisplay.data).isNone = true ∧
    (detectGraphicsDevices world3D (DriverManager.ofDevices [] false)).1 = false ∧
    (detectGraphicsDevices world3D (DriverManager.ofDevices [] false)).2.detectedDevices = [] ∧
    (detectGraphicsDevices worldDisplay (DriverManager.ofDevices [] false)).1 = false ∧
    (detectGraphicsDevices worldDisplay (DriverManager.ofDevices [] false)).2.detectedDevices
      = [] := by
  decide

/-! ## C11: the model of a detected device -/

/-- C11, the code at the failing inputs. After a successful search
`matches.size()` is 5, so the test `matches.size() > 4` always holds and the
model is `matches[4].str()`: the description after `: ` when the line has one,
and the empty string, not `Unknown Model`, when the fourth group took no part
in the match, as on a line that ends after the bracketed pair and on a usual
`lspci -nn` line, where ` (rev a1)` follows the pair. -/
theorem detectGraphicsDevices_model_empty :
    (regex_search deviceRegex vgaLineBare.data).map (fun m => m 4) = some none ∧
    (detectGraphicsDevices worldBareVga (DriverManager.ofDevices [] false)).2.detectedDevices =
      [{ pciId := "8086:0166", vendor := "Intel", model := "", currentDriver := "intel",
         isPrimary := true }] ∧
    (regex_search deviceRegex vgaLine.data).map (fun m => m 4) = some none ∧
    (detectGraphicsDevices worldOneVga (DriverManager.ofDevices [] false)).2.detectedDevices =
      [{ pciId := "10de:1c82", vendor := "NVIDIA", model := "", currentDriver := "nouveau",
         isPrimary := true }] ∧
    (detectGraphicsDevices worldDescribedVga
        (DriverManager.ofDevices [] false)).2.detectedDevices =
      [{ pciId := "8086:0166", vendor := "Intel", model := "Intel HD Graphics 4000",
         currentDriver := "intel", isPrimary := true }] := by
  decide

end DriverInstaller
